import Mathlib

/-!
# Container launcher (`src/main.c`): shallow embedding and verification

The C program is embedded as pure Lean functions.  Every function of the source
that performs system calls becomes a function into `Run α`: the control outcome
of the call (returned a value, terminated the process, replaced the program
image) together with the ordered list of events it performed.  The results of
the system calls are read from an explicit environment `Env`, so that
"every execution" is "every environment".
-/

namespace Container

/-! ## System-call results -/

/-- Result of a system call that yields 0 on success and -1 with an errno on failure. -/
inductive Res0 where
  | ok : Res0
  | err (errno : Nat) : Res0
deriving DecidableEq

/-- Result of a system call that yields a non-negative value on success and -1 with an
errno on failure. -/
inductive ResV where
  | ok (v : Nat) : ResV
  | err (errno : Nat) : ResV
deriving DecidableEq

/-- The C return value of a 0 / -1 system call. -/
def Res0.toInt : Res0 → Int
  | .ok => 0
  | .err _ => -1

/-- The value of `errno` left behind by a failed call. -/
def Res0.errno : Res0 → Nat
  | .ok => 0
  | .err e => e

/-- The C return value of a value-returning system call. -/
def ResV.toInt : ResV → Int
  | .ok v => (v : Int)
  | .err _ => -1

/-! ## Events and control outcomes -/

/-- The library and system calls issued by the program, with their arguments. -/
inductive Call where
  | sethostname (name : String) (len : Nat)
  | unshare (flags : Nat)
  | mount (source : Option String) (target : String) (fstype : Option String) (flags : Nat)
  | getcwd
  | chroot (path : String)
  | chdir (path : String)
  | mkdir (path : String) (mode : Nat)
  | access (path : String) (mode : Nat)
  | open_ (path : String) (flags : Nat)
  | write (fd : Int) (content : String) (count : Nat)
  | close (fd : Int)
  | getpid
  | fork
  | execvp (file : Option String) (argv : List String)
  | execv (path : String) (argv : List (Option String))
  | waitpid (pid : Int)
  | umount2 (target : String) (flags : Nat)
  | clone (flags : Nat)
  | malloc (slots : Nat)
  | free
deriving DecidableEq

/-- One observable step of a process: a call with its return value, or text written to
standard output or standard error. -/
inductive Event where
  | sys (c : Call) (ret : Int)
  | stdout (s : String)
  | stderr (s : String)
deriving DecidableEq

/-- How a piece of code hands control on. -/
inductive Ctl (α : Type) where
  /-- It returned `a` to its caller. -/
  | ret (a : α)
  /-- It called `exit(code)` or `_exit(code)`; control never comes back. -/
  | exit (code : Int)
  /-- Its program image was replaced by `path` with argument vector `argv`. -/
  | exec (path : String) (argv : List String)
  /-- It wrote outside an allocated block. -/
  | fault
deriving DecidableEq

/-- Control outcome and event trace of running a piece of code. -/
structure Run (α : Type) where
  ctl : Ctl α
  trace : List Event

/-- Sequencing: the continuation runs only when the first part returned. -/
def Run.bind {α β : Type} (m : Run α) (f : α → Run β) : Run β :=
  match m.ctl with
  | .ret a => ⟨(f a).ctl, m.trace ++ (f a).trace⟩
  | .exit c => ⟨.exit c, m.trace⟩
  | .exec p v => ⟨.exec p v, m.trace⟩
  | .fault => ⟨.fault, m.trace⟩

instance : Monad Run where
  pure a := ⟨.ret a, []⟩
  bind := Run.bind

/-- Record one event. -/
def emit (e : Event) : Run Unit := ⟨.ret (), [e]⟩

/-- The C library `exit`. -/
def exit {α : Type} (code : Int) : Run α := ⟨.exit code, []⟩

/-- The C library `_exit`. -/
def _exit {α : Type} (code : Int) : Run α := ⟨.exit code, []⟩

/-- The exit code a parent observes for a process that called `exit(code)`: the low
eight bits of the argument. -/
def exit_code (code : Int) : Nat := (code % 256).toNat

/-! ## Wait status (platform header `<sys/wait.h>`, glibc `bits/waitstatus.h`)

The status word is a C `int`; `x & 0x7f` on a twos-complement integer is `x % 128`
and `(x & 0xff00) >> 8` is `(x % 65536) / 256`. -/

/-- Platform `WTERMSIG(status)`, that is `status & 0x7f`. -/
def WTERMSIG (status : Int) : Int := status % 128

/-- Platform `WEXITSTATUS(status)`, that is `(status & 0xff00) >> 8`. -/
def WEXITSTATUS (status : Int) : Int := (status % 65536) / 256

/-- Platform `WIFEXITED(status)`, that is `WTERMSIG(status) == 0`. -/
def WIFEXITED (status : Int) : Bool := WTERMSIG status == 0

/-- Conversion of an `int` in the range 0..255 to `signed char`. -/
def signed_char (v : Int) : Int := if v % 256 ≥ 128 then v % 256 - 256 else v % 256

/-- Platform `WIFSIGNALED(status)`, that is `((signed char) ((status & 0x7f) + 1) >> 1) > 0`. -/
def WIFSIGNALED (status : Int) : Bool := decide (signed_char (status % 128 + 1) / 2 > 0)

/-- How a process ended, as the kernel records it. -/
inductive Termination where
  | exited (code : Nat) : Termination
  | signaled (sig : Nat) (core : Bool) : Termination
deriving DecidableEq

/-- A termination the kernel can report: an 8-bit exit code, or a signal number that fits
the 7-bit signal field and is neither 0 nor the "stopped" marker 0x7f. -/
def Termination.wellFormed : Termination → Prop
  | .exited c => c ≤ 255
  | .signaled s _ => 1 ≤ s ∧ s ≤ 126

instance Termination.decWellFormed : (t : Termination) → Decidable t.wellFormed
  | .exited c => inferInstanceAs (Decidable (c ≤ 255))
  | .signaled s _ => inferInstanceAs (Decidable (1 ≤ s ∧ s ≤ 126))

/-- The status word `waitpid` stores for a termination: `code << 8` for a normal exit,
the signal number, with bit 0x80 set on core dump, for a death by signal. -/
def wait_status : Termination → Int
  | .exited c => ((c % 256 : Nat) : Int) * 256
  | .signaled s core => ((s % 128 : Nat) : Int) + (if core then 128 else 0)

/-- The termination of a process whose code ended with the control outcome `c`:
`exit(code)` is a normal exit with the low eight bits of `code`. -/
def termination_of_exit (code : Int) : Termination := .exited (exit_code code)

/-! ## `die`, `must`, `handle_child_exit` -/

/-- Source `die` (lines 31-46): print the message to standard error, then `exit(1)`.
The errno text appended to the message is not modelled. -/
def die {α : Type} (msg : String) : Run α := do
  emit (.stderr msg)
  exit 1

/-- Source `must` (lines 48-52). -/
def must (rc : Int) (what : String) : Run Unit :=
  if rc < 0 then die (what ++ " failed") else pure ()

/-- Source `handle_child_exit` (lines 73-89). -/
def handle_child_exit (status : Int) : Run Unit :=
  if WIFEXITED status then do
    emit (.stdout ("Child exited with status " ++ toString (WEXITSTATUS status) ++ "\n"))
    exit (WEXITSTATUS status)
  else if WIFSIGNALED status then do
    emit (.stdout ("Child killed by signal " ++ toString (WTERMSIG status) ++ "\n"))
    exit (128 + WTERMSIG status)
  else
    exit 1

/-! ## Constants of the source and of the platform headers -/

/-- Source line 3. -/
def HOSTNAME : String := "container"

/-- Source line 4. -/
def ROOTFS_DIR : String := "ubuntu-rootfs"

/-- Source line 5. -/
def PATH_BUFFER_SIZE : Nat := 512

/-- Platform value of `PATH_MAX` (`<limits.h>`, Linux). -/
def PATH_MAX : Nat := 4096

/-- Platform value of `EEXIST` (`<errno.h>`, Linux). -/
def EEXIST : Nat := 17

/-- Platform value of `F_OK` (`<unistd.h>`). -/
def F_OK : Nat := 0

/-- Platform value of `O_WRONLY` (`<fcntl.h>`, Linux). -/
def O_WRONLY : Nat := 1

/-- Platform value of `O_TRUNC` (`<fcntl.h>`, Linux). -/
def O_TRUNC : Nat := 512

/-- Platform value of `MS_REC` (`<sys/mount.h>`). -/
def MS_REC : Nat := 16384

/-- Platform value of `MS_PRIVATE` (`<sys/mount.h>`). -/
def MS_PRIVATE : Nat := 262144

/-- Platform value of `CLONE_NEWNS` (`<sched.h>`). -/
def CLONE_NEWNS : Nat := 0x00020000

/-- Platform value of `CLONE_NEWUTS` (`<sched.h>`). -/
def CLONE_NEWUTS : Nat := 0x04000000

/-- Platform value of `CLONE_NEWPID` (`<sched.h>`). -/
def CLONE_NEWPID : Nat := 0x20000000

/-- Platform value of `SIGCHLD` (`<signal.h>`, Linux). -/
def SIGCHLD : Nat := 17

/-! ## The environment: the result of every call the program makes -/

/-- Results the operating system gives to one process.  Calls that the program issues
several times are told apart by their path or target argument. -/
structure Env where
  sethostname : Res0
  unshare : Res0
  /-- Result of `mount`, by target. -/
  mount : String → Res0
  /-- Result of `getcwd`: the working directory, or `none` for a NULL return. -/
  getcwd : Option String
  chroot : Res0
  chdir : Res0
  /-- Result of `mkdir`, by path and mode. -/
  mkdir : String → Nat → Res0
  /-- Result of `access`, by path. -/
  access : String → Res0
  /-- Result of `open`, by path: a file descriptor or a failure. -/
  open_ : String → ResV
  /-- Result of `write`, by descriptor and content. -/
  write : Int → String → ResV
  /-- Result of `close`, by descriptor. -/
  close : Int → Res0
  getpid : Nat
  /-- Result of `fork`: `ok 0` in the new process, `ok pid` in the parent. -/
  fork : ResV
  /-- Result of `execvp`: `none` when the image is replaced, `some errno` when it fails. -/
  execvp : Option Nat
  /-- Result of `execv`: `none` when the image is replaced, `some errno` when it fails. -/
  execv : Option Nat
  /-- Result of `waitpid`. -/
  waitpid : ResV
  /-- The status word `waitpid` stores when it succeeds. -/
  wstatus : Int
  /-- Result of `umount2`, by target. -/
  umount2 : String → Res0
  /-- Result of `clone` in the calling process. -/
  clone : ResV
  /-- Whether `malloc` returns a block. -/
  malloc : Bool
  /-- The indeterminate content of slot `i` of a block just returned by `malloc`. -/
  garbage : Nat → Option String

/-- Issue a 0 / -1 call: record it and return its C return value. -/
def sys0 (c : Call) (r : Res0) : Run Int := ⟨.ret r.toInt, [.sys c r.toInt]⟩

/-- Issue a value-returning call: record it and return its C return value. -/
def sysV (c : Call) (r : ResV) : Run Int := ⟨.ret r.toInt, [.sys c r.toInt]⟩

/-- Library `snprintf(buf, size, ...)` of the formatted text `s`: the buffer content (cut to
`size - 1` characters when the text does not fit) and the return value (the length the
full text needs, in bytes). -/
def snprintf (size : Nat) (s : String) : String × Nat :=
  (if s.utf8ByteSize < size then s else String.mk (s.data.take (size - 1)), s.utf8ByteSize)

/-- The `exec` family: on success the image is replaced and the call does not return,
on failure it returns -1. -/
def exec_call (c : Call) (r : Option Nat) (path : String) (argv : List String) : Run Int :=
  match r with
  | none => ⟨.exec path argv, [.sys c 0]⟩
  | some _ => ⟨.ret (-1), [.sys c (-1)]⟩

/-- System call `waitpid(pid, &status, 0)`: returns the C return value and the content of `status`
after the call, which is overwritten only on success. -/
def waitpid (env : Env) (pid : Int) (status : Int) : Run (Int × Int) :=
  ⟨.ret (env.waitpid.toInt, match env.waitpid with
      | .ok _ => env.wstatus
      | .err _ => status),
   [.sys (.waitpid pid) env.waitpid.toInt]⟩

/-! ## `ensure_dir`, `write_to_file`, `cg_join_and_limit` -/

/-- Source `ensure_dir` (lines 54-61). -/
def ensure_dir (env : Env) (path : String) (mode : Nat) : Run Int := do
  let rc ← sys0 (.mkdir path mode) (env.mkdir path mode)
  if rc = 0 then
    pure 0
  else if (env.mkdir path mode).errno = EEXIST then
    pure 0
  else
    pure (-1)

/-- Source `write_to_file` (lines 63-71). -/
def write_to_file (env : Env) (path : String) (content : String) : Run Unit := do
  let fd ← sysV (.open_ path (O_WRONLY ||| O_TRUNC)) (env.open_ path)
  if fd ≥ 0 then do
    let _ ← sysV (.write fd content content.utf8ByteSize) (env.write fd content)
    let _ ← sys0 (.close fd) (env.close fd)
    pure ()
  else
    pure ()

/-- Source `cg_join_and_limit` (lines 91-119). -/
def cg_join_and_limit (env : Env) : Run Unit := do
  let cgroups := "/sys/fs/cgroup"
  let path := (snprintf PATH_BUFFER_SIZE (cgroups ++ "/pids")).1
  let rc ← sys0 (.access path F_OK) (env.access path)
  if rc ≠ 0 then
    pure ()
  else do
    let cgroup_path := (snprintf PATH_BUFFER_SIZE (cgroups ++ "/pids/container")).1
    let rc ← ensure_dir env cgroup_path 0o755
    if rc < 0 then
      pure ()
    else do
      let f := (snprintf PATH_BUFFER_SIZE (cgroup_path ++ "/pids.max")).1
      write_to_file env f "20"
      let f := (snprintf PATH_BUFFER_SIZE (cgroup_path ++ "/notify_on_release")).1
      write_to_file env f "1"
      let f := (snprintf PATH_BUFFER_SIZE (cgroup_path ++ "/cgroup.procs")).1
      let pid ← sysV .getpid (.ok env.getpid)
      let buf := (snprintf 32 (toString pid)).1
      write_to_file env f buf

/-! ## `child_main` -/

/-- Source `struct child_args` (lines 25-29). -/
structure child_args where
  argv : List String
  argc : Nat

/-- A block of pointer slots; `none` is the NULL pointer. -/
abbrev Slots := List (Option String)

/-- Assignment `a[i] = v` into a block: a fault when `i` is not one of its slots. -/
def store (a : Slots) (i : Nat) (v : Option String) : Run Slots :=
  if i < a.length then pure (a.set i v) else ⟨.fault, []⟩

/-- The argument vector a NULL-terminated block denotes: the strings before the first
NULL. -/
def c_vector : Slots → List String
  | [] => []
  | none :: _ => []
  | some s :: rest => s :: c_vector rest

/-- Source `child_main` (lines 121-144).  The block returned by `malloc` has `argc + 1`
slots of indeterminate content (`env.garbage`); the loop `for (i = 2; i < argc; i++)` runs
over the indices `2, ..., argc - 1`. -/
def child_main (env : Env) (args : child_args) : Run Int := do
  let _ ← sys0 (.malloc (args.argc + 1)) (if env.malloc then .ok else .err 12)
  if !env.malloc then
    die "malloc"
  else do
    let new_argv : Slots := (List.range (args.argc + 1)).map env.garbage
    let new_argv ← store new_argv 0 (some "/proc/self/exe")
    let new_argv ← store new_argv 1 (some "child")
    let new_argv ← (List.range' 2 (args.argc - 2)).foldlM
      (fun a i => store a i (args.argv.get? i)) new_argv
    let new_argv ← store new_argv args.argc none
    let _ ← exec_call (.execv "/proc/self/exe" new_argv) env.execv
      "/proc/self/exe" (c_vector new_argv)
    emit (.stderr "execv failed")
    let _ ← sys0 .free .ok
    pure 1

/-! ## `child`, `run`, `main` -/

/-- The loop of source lines 149-152: one `fprintf` per argument from index 2 on. -/
def print_args (g_argc : Nat) (g_argv : List String) : Run Unit :=
  ⟨.ret (), (List.range' 2 (g_argc - 2)).map (fun i =>
    Event.stdout (g_argv.getD i "(null)" ++ (if i + 1 < g_argc then " " else "")))⟩

/-- Source `child` (lines 146-203).  `g_argc` and `g_argv` are the globals set by `main`. -/
def child (env : Env) (g_argc : Nat) (g_argv : List String) : Run Unit := do
  emit (.stdout "Running ")
  print_args g_argc g_argv
  emit (.stdout "\n")
  let rc ← sys0 (.sethostname HOSTNAME HOSTNAME.utf8ByteSize) env.sethostname
  must rc "sethostname"
  let rc ← sys0 (.unshare CLONE_NEWNS) env.unshare
  must rc "unshare(CLONE_NEWNS)"
  let rc ← sys0 (.mount none "/" none (MS_REC ||| MS_PRIVATE)) (env.mount "/")
  must rc "mount MS_PRIVATE"
  emit (.sys .getcwd (if env.getcwd.isSome then 0 else -1))
  match env.getcwd with
  | none => die "getcwd"
  | some cwd =>
    let fmt := snprintf PATH_MAX (cwd ++ "/" ++ ROOTFS_DIR)
    if fmt.2 ≥ PATH_MAX then
      die "rootfs path too long"
    else do
      let rootfs_path := fmt.1
      let rc ← sys0 (.chroot rootfs_path) env.chroot
      must rc "chroot"
      let rc ← sys0 (.chdir "/") env.chdir
      must rc "chdir /"
      let _ ← ensure_dir env "proc" 0o555
      let _ ← ensure_dir env "mytemp" 0o755
      let rc ← sys0 (.mount (some "proc") "proc" (some "proc") 0) (env.mount "proc")
      must rc "mount proc"
      let rc ← sys0 (.mount (some "thing") "mytemp" (some "tmpfs") 0) (env.mount "mytemp")
      must rc "mount tmpfs"
      cg_join_and_limit env
      let pid ← sysV .fork env.fork
      if pid < 0 then
        die "fork"
      else if pid = 0 then
        if g_argc < 3 then
          die "no command provided"
        else do
          let cmd_argv := g_argv.drop 2
          let _ ← exec_call (.execvp cmd_argv.head? cmd_argv) env.execvp
            (cmd_argv.head?.getD "") cmd_argv
          emit (.stderr "execvp")
          _exit 127
      else do
        let status : Int := 0
        let (rc, status) ← waitpid env pid status
        (if rc < 0 then emit (.stderr "waitpid") else pure ())
        let rc ← sys0 (.umount2 "proc" 0) (env.umount2 "proc")
        must rc "umount2 proc"
        let rc ← sys0 (.umount2 "mytemp" 0) (env.umount2 "mytemp")
        must rc "umount2 mytemp"
        handle_child_exit status

/-- Source `run` (lines 205-230).  The new process created by `clone` runs `child_main`;
this function is the calling process.  `status` is uninitialised before `waitpid` and is
read only after `waitpid` succeeded. -/
def run (env : Env) (argc : Nat) (argv : List String) : Run Unit := do
  emit (.stdout "Running (namespaces) (reexec) (wait)...\n")
  let _args : child_args := ⟨argv, argc⟩
  let clone_flags := CLONE_NEWUTS ||| CLONE_NEWPID ||| CLONE_NEWNS ||| SIGCHLD
  let pid ← sysV (.clone clone_flags) env.clone
  if pid = -1 then do
    emit (.stderr "clone failed")
    exit 1
  else do
    let (rc, status) ← waitpid env pid 0
    if rc = -1 then do
      emit (.stderr "waitpid failed")
      exit 1
    else
      handle_child_exit status

/-- Source `main` (lines 232-258).  Falling off the end of `main` returns 0. -/
def main (env : Env) (argc : Nat) (argv : List String) : Run Int := do
  if argc < 2 then do
    emit (.stderr ("Usage: " ++ argv.getD 0 "(null)" ++ " <name>\n"))
    pure 1
  else do
    let command := argv.getD 1 "(null)"
    if command = "run" then do
      run env argc argv
      pure 0
    else if command = "child" then do
      child env argc argv
      pure 0
    else do
      emit (.stderr ("Unknown command: " ++ command ++ "\n"))
      exit 1

/-! ## Observations on traces -/

/-- The calls that create a process or build the sandbox. -/
def Call.isSandbox : Call → Bool
  | .clone _ => true
  | .fork => true
  | .sethostname _ _ => true
  | .unshare _ => true
  | .mount _ _ _ _ => true
  | .chroot _ => true
  | _ => false

/-- Whether an event is one of the sandbox calls. -/
def Event.isSandbox : Event → Bool
  | .sys c _ => c.isSandbox
  | _ => false

/-- Whether an event is an `execvp` call. -/
def Event.isExecvp : Event → Bool
  | .sys (.execvp _ _) _ => true
  | _ => false

/-- Effect of one event on the list of filesystems this process has mounted: a
successful `mount` with a filesystem type adds its target, a successful `umount2`
removes it. -/
def mount_step (tbl : List String) : Event → List String
  | .sys (.mount _ target (some _) _) ret => if ret = 0 then target :: tbl else tbl
  | .sys (.umount2 target _) ret => if ret = 0 then tbl.erase target else tbl
  | _ => tbl

/-- The filesystems mounted by the process and still mounted after the trace. -/
def mounted_after (tr : List Event) : List String := tr.foldl mount_step []

/-- An event that is neither a `mount` nor a `umount2` call. -/
def Event.keepsMounts : Event → Bool
  | .sys (.mount _ _ _ _) _ => false
  | .sys (.umount2 _ _) _ => false
  | .sys _ _ => true
  | .stdout _ => true
  | .stderr _ => true

/-- The paths of the `open` calls of a trace, in order. -/
def opens_of : List Event → List String
  | [] => []
  | .sys (.open_ p _) _ :: rest => p :: opens_of rest
  | _ :: rest => opens_of rest

/-- The `(descriptor, content)` pairs of the `write` calls of a trace, in order. -/
def writes_of : List Event → List (Int × String)
  | [] => []
  | .sys (.write fd c _) _ :: rest => (fd, c) :: writes_of rest
  | _ :: rest => writes_of rest

/-- The diagnostic of a missing command, as `die` writes it. -/
def no_command_report : Event := .stderr "no command provided"

/-- An event that neither runs a program nor reports a missing command. -/
def Event.isQuiet : Event → Bool
  | .sys (.execvp _ _) _ => false
  | .sys _ _ => true
  | .stdout _ => true
  | .stderr s => s != "no command provided"

/-- The events of `child` up to and including the two mounts (source lines 148-175) when
every fatal step succeeds and the working directory is `cwd`. -/
def setup_trace (env : Env) (g_argc : Nat) (g_argv : List String) (cwd : String) :
    List Event :=
  .stdout "Running " :: (print_args g_argc g_argv).trace ++
    [.stdout "\n",
     .sys (.sethostname HOSTNAME HOSTNAME.utf8ByteSize) 0,
     .sys (.unshare CLONE_NEWNS) 0,
     .sys (.mount none "/" none (MS_REC ||| MS_PRIVATE)) 0,
     .sys .getcwd 0,
     .sys (.chroot (cwd ++ "/" ++ ROOTFS_DIR)) 0,
     .sys (.chdir "/") 0,
     .sys (.mkdir "proc" 0o555) (env.mkdir "proc" 0o555).toInt,
     .sys (.mkdir "mytemp" 0o755) (env.mkdir "mytemp" 0o755).toInt,
     .sys (.mount (some "proc") "proc" (some "proc") 0) 0,
     .sys (.mount (some "thing") "mytemp" (some "tmpfs") 0) 0]

/-! ## A model of `mkdir(2)` on a directory tree -/

/-- The part of the filesystem `mkdir` depends on: the existing entries with their mode,
and for a missing path the errno with which its creation is refused (`none` when it can
be created). -/
structure FsState where
  entries : List (String × Nat)
  refuse : String → Option Nat

/-- Whether a path exists. -/
def FsState.exists_ (fs : FsState) (path : String) : Bool :=
  fs.entries.any (fun e => e.1 == path)

/-- The call `mkdir(path, mode)`: EEXIST on an existing path, the refusal errno on a path
that cannot be created, otherwise success and a new entry. -/
def sys_mkdir (fs : FsState) (path : String) (mode : Nat) : Res0 × FsState :=
  if fs.exists_ path then (.err EEXIST, fs)
  else match fs.refuse path with
    | some e => (.err e, fs)
    | none => (.ok, { fs with entries := (path, mode) :: fs.entries })

/-- The environment in which `mkdir` answers from the filesystem state `fs`. -/
def Env.on_fs (env : Env) (fs : FsState) : Env :=
  { env with mkdir := fun p m => (sys_mkdir fs p m).1 }

/-- The value of `ensure_dir(path, mode)` run on the filesystem state `fs`, and the state
it leaves. -/
def ensure_dir_on (env : Env) (fs : FsState) (path : String) (mode : Nat) :
    Ctl Int × FsState :=
  ((ensure_dir (env.on_fs fs) path mode).ctl, (sys_mkdir fs path mode).2)

/-! ## Concrete environments -/

/-- An environment in which every call succeeds; `fork` returns in the parent, and the
awaited process ended with the status word `status`. -/
def env_ok (status : Int) : Env where
  sethostname := .ok
  unshare := .ok
  mount := fun _ => .ok
  getcwd := some "/home/user"
  chroot := .ok
  chdir := .ok
  mkdir := fun _ _ => .ok
  access := fun _ => .ok
  open_ := fun _ => .ok 3
  write := fun _ c => .ok c.utf8ByteSize
  close := fun _ => .ok
  getpid := 1
  fork := .ok 2
  execvp := none
  execv := none
  waitpid := .ok 2
  wstatus := status
  umount2 := fun _ => .ok
  clone := .ok 4242
  malloc := true
  garbage := fun _ => some "(indeterminate)"

/-- The environment of the process created by `fork` in `child`: every call succeeds and
`fork` returns 0. -/
def env_forked : Env := { env_ok 0 with fork := .ok 0 }

/-- The forked process when `execvp` fails with ENOENT (errno 2). -/
def env_exec_fails : Env := { env_forked with execvp := some 2 }

/-- The isolation process when the proc mount succeeds and the tmpfs mount fails with
ENOMEM (errno 12). -/
def env_tmpfs_fails : Env :=
  { env_ok 0 with mount := fun target => if target = "mytemp" then .err 12 else .ok }

/-- The isolation process when `mkdir("proc")` fails with EACCES (errno 13) and every other
call succeeds. -/
def env_mkdir_fails : Env :=
  { env_ok 0 with mkdir := fun path _ => if path = "proc" then .err 13 else .ok }

/-- The isolation process when `mkdir("proc")` fails with EACCES (errno 13) and the mount
on the missing directory then fails with ENOENT (errno 2). -/
def env_mkdir_then_mount_fails : Env :=
  { env_ok 0 with
    mkdir := fun path _ => if path = "proc" then .err 13 else .ok,
    mount := fun target => if target = "proc" then .err 2 else .ok }

/-- The isolation process when `waitpid` fails with EINTR (errno 4); the status word the
kernel would have stored says "killed by signal 9". -/
def env_wait_fails : Env := { env_ok 9 with waitpid := .err 4 }

/-- A filesystem state with no entries in which every path can be created. -/
def fs_empty : FsState := { entries := [], refuse := fun _ => none }

/-- The launcher when `clone` succeeds and `waitpid` fails with EINTR (errno 4). -/
def env_run_wait_fails : Env := { env_ok 0 with waitpid := .err 4 }

/-- The host offers no pids controller: the probe of /sys/fs/cgroup/pids fails with
ENOENT (errno 2). -/
def env_no_cgroup : Env := { env_ok 0 with access := fun _ => .err 2 }

/-- The pids controller is there, the sub-group is created, and opening `pids.max` fails
with EACCES (errno 13); the two other files open as descriptors 4 and 5. -/
def env_pids_max_denied : Env :=
  { env_ok 0 with
    getpid := 1,
    open_ := fun path =>
      if path = "/sys/fs/cgroup/pids/container/pids.max" then .err 13
      else if path = "/sys/fs/cgroup/pids/container/notify_on_release" then .ok 4
      else .ok 5 }

/-! ## Specification-side definitions -/

/-- The exit mapping in the words of the specification: a normal termination gives the
exit code of the program, a death by signal gives 128 plus the signal number. -/
def spec_exit_code : Termination → Int
  | .exited c => (c : Int)
  | .signaled s _ => 128 + (s : Int)

/-- Every fatal step of `child` before the two `mkdir` calls succeeded: hostname, mount
namespace, private mount table, working directory short enough, root switch. -/
def reaches_mkdir (env : Env) : Prop :=
  env.sethostname = .ok ∧ env.unshare = .ok ∧ env.mount "/" = .ok ∧
  (∃ cwd, env.getcwd = some cwd ∧ (cwd ++ "/" ++ ROOTFS_DIR).utf8ByteSize < PATH_MAX) ∧
  env.chroot = .ok ∧ env.chdir = .ok

/-- Every fatal step of the setup in `child` succeeded: hostname, mount namespace,
private mount table, working directory short enough, root switch and the two mounts.
The two `mkdir` calls and the resource limiter are not part of it. -/
def setup_ok (env : Env) : Prop :=
  env.sethostname = .ok ∧ env.unshare = .ok ∧ env.mount "/" = .ok ∧
  (∃ cwd, env.getcwd = some cwd ∧ (cwd ++ "/" ++ ROOTFS_DIR).utf8ByteSize < PATH_MAX) ∧
  env.chroot = .ok ∧ env.chdir = .ok ∧ env.mount "proc" = .ok ∧ env.mount "mytemp" = .ok

/-! ## Basic facts about sequencing -/

@[simp] theorem Run.pure_ctl {α : Type} (a : α) : (pure a : Run α).ctl = .ret a := rfl

@[simp] theorem Run.pure_trace {α : Type} (a : α) : (pure a : Run α).trace = [] := rfl

@[simp] theorem Run.bind_def {α β : Type} (m : Run α) (f : α → Run β) :
    (m >>= f) = Run.bind m f := rfl

theorem Run.bind_ctl {α β : Type} (m : Run α) (f : α → Run β) :
    (Run.bind m f).ctl =
      match m.ctl with
      | .ret a => (f a).ctl
      | .exit c => .exit c
      | .exec p v => .exec p v
      | .fault => .fault := by
  unfold Run.bind
  cases m.ctl <;> rfl

theorem Run.bind_trace {α β : Type} (m : Run α) (f : α → Run β) :
    (Run.bind m f).trace =
      match m.ctl with
      | .ret a => m.trace ++ (f a).trace
      | .exit _ => m.trace
      | .exec _ _ => m.trace
      | .fault => m.trace := by
  unfold Run.bind
  cases m.ctl <;> rfl

theorem Run.ite_ctl {α : Type} (c : Prop) [Decidable c] (x y : Run α) :
    (if c then x else y).ctl = if c then x.ctl else y.ctl := by
  split <;> rfl

theorem Run.ite_trace {α : Type} (c : Prop) [Decidable c] (x y : Run α) :
    (if c then x else y).trace = if c then x.trace else y.trace := by
  split <;> rfl

@[simp] theorem emit_ctl (e : Event) : (emit e).ctl = .ret () := rfl

@[simp] theorem emit_trace (e : Event) : (emit e).trace = [e] := rfl

@[simp] theorem sys0_ctl (c : Call) (r : Res0) : (sys0 c r).ctl = .ret r.toInt := rfl

@[simp] theorem sys0_trace (c : Call) (r : Res0) : (sys0 c r).trace = [.sys c r.toInt] := rfl

@[simp] theorem sysV_ctl (c : Call) (r : ResV) : (sysV c r).ctl = .ret r.toInt := rfl

@[simp] theorem sysV_trace (c : Call) (r : ResV) : (sysV c r).trace = [.sys c r.toInt] := rfl

@[simp] theorem exit_ctl {α : Type} (code : Int) : (exit code : Run α).ctl = .exit code := rfl

@[simp] theorem exit_trace {α : Type} (code : Int) : (exit code : Run α).trace = [] := rfl

@[simp] theorem _exit_ctl {α : Type} (code : Int) : (_exit code : Run α).ctl = .exit code := rfl

@[simp] theorem _exit_trace {α : Type} (code : Int) : (_exit code : Run α).trace = [] := rfl

@[simp] theorem die_ctl {α : Type} (msg : String) : (die msg : Run α).ctl = .exit 1 := rfl

@[simp] theorem die_trace {α : Type} (msg : String) :
    (die msg : Run α).trace = [.stderr msg] := rfl

@[simp] theorem must_ok_ctl (what : String) : (must 0 what).ctl = .ret () := rfl

@[simp] theorem must_ok_trace (what : String) : (must 0 what).trace = [] := rfl

@[simp] theorem must_err_ctl (what : String) : (must (-1) what).ctl = .exit 1 := rfl

@[simp] theorem must_err_trace (what : String) :
    (must (-1) what).trace = [.stderr (what ++ " failed")] := rfl

@[simp] theorem print_args_ctl (g_argc : Nat) (g_argv : List String) :
    (print_args g_argc g_argv).ctl = .ret () := rfl

@[simp] theorem waitpid_ctl (env : Env) (pid status : Int) :
    (waitpid env pid status).ctl = .ret (env.waitpid.toInt, match env.waitpid with
      | .ok _ => env.wstatus
      | .err _ => status) := rfl

@[simp] theorem waitpid_trace (env : Env) (pid status : Int) :
    (waitpid env pid status).trace = [.sys (.waitpid pid) env.waitpid.toInt] := rfl

/-! ## The wait-status encoding -/

theorem handle_child_exit_ctl (status : Int) :
    (handle_child_exit status).ctl =
      if WIFEXITED status then .exit (WEXITSTATUS status)
      else if WIFSIGNALED status then .exit (128 + WTERMSIG status)
      else .exit 1 := by
  unfold handle_child_exit
  split
  · rfl
  · split <;> rfl

theorem WIFEXITED_iff (status : Int) : WIFEXITED status = true ↔ status % 128 = 0 := by
  simp [WIFEXITED, WTERMSIG]

theorem WIFSIGNALED_iff (status : Int) :
    WIFSIGNALED status = true ↔ 1 ≤ status % 128 ∧ status % 128 ≤ 126 := by
  have h0 : 0 ≤ status % 128 := Int.emod_nonneg _ (by norm_num)
  have h1 : status % 128 < 128 := Int.emod_lt_of_pos _ (by norm_num)
  simp only [WIFSIGNALED, signed_char, decide_eq_true_eq]
  constructor
  · intro h
    by_contra hc
    have : status % 128 = 0 ∨ status % 128 = 127 := by omega
    rcases this with h2 | h2 <;> rw [h2] at h <;> norm_num at h
  · rintro ⟨h2, h3⟩
    have h4 : (status % 128 + 1) % 256 = status % 128 + 1 := by omega
    rw [h4]
    split <;> omega

/-! ## The helpers of `child` always return -/

theorem ensure_dir_ctl (env : Env) (path : String) (mode : Nat) :
    (ensure_dir env path mode).ctl =
      .ret (if (env.mkdir path mode).toInt = 0 then 0
            else if (env.mkdir path mode).errno = EEXIST then 0 else -1) := by
  unfold ensure_dir
  simp only [Run.bind_def, Run.bind_ctl, sys0_ctl]
  split_ifs <;> rfl

theorem ensure_dir_trace (env : Env) (path : String) (mode : Nat) :
    (ensure_dir env path mode).trace = [.sys (.mkdir path mode) (env.mkdir path mode).toInt] := by
  unfold ensure_dir
  simp only [Run.bind_def, Run.bind_trace, sys0_ctl, sys0_trace]
  split_ifs <;> rfl

theorem write_to_file_ctl (env : Env) (path content : String) :
    (write_to_file env path content).ctl = .ret () := by
  unfold write_to_file
  simp only [Run.bind_def, Run.bind_ctl, sysV_ctl, sys0_ctl]
  split_ifs <;> rfl

theorem write_to_file_trace (env : Env) (path content : String) :
    (write_to_file env path content).trace =
      .sys (.open_ path (O_WRONLY ||| O_TRUNC)) (env.open_ path).toInt ::
        (if (env.open_ path).toInt ≥ 0 then
          [.sys (.write (env.open_ path).toInt content content.utf8ByteSize)
              (env.write (env.open_ path).toInt content).toInt,
           .sys (.close (env.open_ path).toInt) (env.close (env.open_ path).toInt).toInt]
         else []) := by
  unfold write_to_file
  simp only [Run.bind_def, Run.bind_trace, Run.bind_ctl, sysV_ctl, sysV_trace, sys0_ctl,
    sys0_trace]
  split_ifs <;> rfl

theorem cg_join_and_limit_ctl (env : Env) : (cg_join_and_limit env).ctl = .ret () := by
  unfold cg_join_and_limit
  simp only [Run.bind_def, Run.bind_ctl, Run.ite_ctl, Run.pure_ctl, sysV_ctl, sys0_ctl,
    ensure_dir_ctl, write_to_file_ctl]
  split_ifs <;> rfl


/-! ## The parent path of `child` -/

theorem child_parent_ctl (env : Env) (g_argc : Nat) (g_argv : List String) (pid : Nat)
    (hsetup : setup_ok env) (hfork : env.fork = .ok (pid + 1))
    (hu1 : env.umount2 "proc" = .ok) (hu2 : env.umount2 "mytemp" = .ok) :
    (child env g_argc g_argv).ctl =
      (handle_child_exit (match env.waitpid with
        | .ok _ => env.wstatus
        | .err _ => 0)).ctl := by
  obtain ⟨h1, h2, h3, ⟨cwd, h4, h5⟩, h6, h7, h8, h9⟩ := hsetup
  have hp1 : ¬ ((pid : Int) + 1 < 0) := by omega
  have hp2 : ¬ ((pid : Int) + 1 = 0) := by omega
  unfold child
  simp [Run.bind_ctl, Run.ite_ctl, h1, h2, h3, h4, snprintf, not_le.mpr h5, h6, h7, h8, h9,
    ensure_dir_ctl, cg_join_and_limit_ctl, hfork, ResV.toInt, Res0.toInt, hp1, hp2, hu1, hu2]


theorem exit_code_of_byte (c : Int) (h0 : 0 ≤ c) (h1 : c ≤ 255) : (exit_code c : Int) = c := by
  unfold exit_code
  omega

theorem WEXITSTATUS_range (status : Int) : 0 ≤ WEXITSTATUS status ∧ WEXITSTATUS status ≤ 255 := by
  unfold WEXITSTATUS
  omega

theorem spec_exit_code_range (t : Termination) (ht : t.wellFormed) :
    0 ≤ spec_exit_code t ∧ spec_exit_code t ≤ 255 := by
  cases t with
  | exited c =>
    simp only [Termination.wellFormed] at ht
    simp only [spec_exit_code]
    omega
  | signaled s core =>
    simp only [Termination.wellFormed] at ht
    simp only [spec_exit_code]
    omega

theorem handle_child_exit_wait_status (t : Termination) (ht : t.wellFormed) :
    (handle_child_exit (wait_status t)).ctl = .exit (spec_exit_code t) := by
  cases t with
  | exited c =>
    simp only [Termination.wellFormed] at ht
    have he : WIFEXITED (wait_status (.exited c)) = true := by
      rw [WIFEXITED_iff]
      simp only [wait_status]
      omega
    rw [handle_child_exit_ctl, if_pos he]
    simp only [WEXITSTATUS, wait_status, spec_exit_code]
    congr 1
    omega
  | signaled s core =>
    simp only [Termination.wellFormed] at ht
    have hs : WIFSIGNALED (wait_status (.signaled s core)) = true := by
      rw [WIFSIGNALED_iff]
      simp only [wait_status]
      cases core <;> simp <;> omega
    have he : ¬ (WIFEXITED (wait_status (.signaled s core)) = true) := by
      rw [WIFEXITED_iff]
      simp only [wait_status]
      cases core <;> simp <;> omega
    rw [handle_child_exit_ctl, if_neg he, if_pos hs]
    simp only [WTERMSIG, wait_status, spec_exit_code]
    congr 1
    cases core <;> simp <;> omega

theorem termination_of_exit_wellFormed (k : Int) : (termination_of_exit k).wellFormed := by
  simp only [termination_of_exit, Termination.wellFormed, exit_code]
  omega

theorem run_ctl_of_waited (env : Env) (argc : Nat) (argv : List String) (p q : Nat)
    (hclone : env.clone = .ok p) (hwait : env.waitpid = .ok q) :
    (run env argc argv).ctl = (handle_child_exit env.wstatus).ctl := by
  have hp : ¬ ((p : Int) = -1) := by omega
  have hq : ¬ ((q : Int) = -1) := by omega
  unfold run
  simp [Run.bind_ctl, Run.ite_ctl, hclone, hwait, ResV.toInt, hp, hq]

theorem main_ctl_run (env : Env) (argc : Nat) (argv : List String) (h2 : 2 ≤ argc)
    (hcmd : argv.getD 1 "(null)" = "run") (k : Int) (hk : (run env argc argv).ctl = .exit k) :
    (main env argc argv).ctl = .exit k := by
  have h : ¬ (argc < 2) := by omega
  simp only [List.getD_eq_getElem?_getD] at hcmd
  unfold main
  simp [Run.bind_ctl, Run.ite_ctl, h, hcmd, hk]

theorem main_ctl_child (env : Env) (argc : Nat) (argv : List String) (h2 : 2 ≤ argc)
    (hcmd : argv.getD 1 "(null)" = "child") (k : Int)
    (hk : (child env argc argv).ctl = .exit k) :
    (main env argc argv).ctl = .exit k := by
  have h : ¬ (argc < 2) := by omega
  simp only [List.getD_eq_getElem?_getD] at hcmd
  unfold main
  simp [Run.bind_ctl, Run.ite_ctl, h, hcmd, hk]

/-! ## The traces of the helpers -/

theorem snprintf_pids :
    (snprintf PATH_BUFFER_SIZE ("/sys/fs/cgroup" ++ "/pids")).1 = "/sys/fs/cgroup/pids" := by
  decide

theorem snprintf_container :
    (snprintf PATH_BUFFER_SIZE ("/sys/fs/cgroup" ++ "/pids/container")).1 =
      "/sys/fs/cgroup/pids/container" := by
  decide

theorem snprintf_pids_max :
    (snprintf PATH_BUFFER_SIZE ("/sys/fs/cgroup/pids/container" ++ "/pids.max")).1 =
      "/sys/fs/cgroup/pids/container/pids.max" := by
  decide

theorem snprintf_notify :
    (snprintf PATH_BUFFER_SIZE ("/sys/fs/cgroup/pids/container" ++ "/notify_on_release")).1 =
      "/sys/fs/cgroup/pids/container/notify_on_release" := by
  decide

theorem snprintf_procs :
    (snprintf PATH_BUFFER_SIZE ("/sys/fs/cgroup/pids/container" ++ "/cgroup.procs")).1 =
      "/sys/fs/cgroup/pids/container/cgroup.procs" := by
  decide

theorem cg_join_and_limit_trace (env : Env) :
    (cg_join_and_limit env).trace =
      .sys (.access "/sys/fs/cgroup/pids" F_OK) (env.access "/sys/fs/cgroup/pids").toInt ::
        (if (env.access "/sys/fs/cgroup/pids").toInt ≠ 0 then []
         else
          .sys (.mkdir "/sys/fs/cgroup/pids/container" 0o755)
              (env.mkdir "/sys/fs/cgroup/pids/container" 0o755).toInt ::
            (if (if (env.mkdir "/sys/fs/cgroup/pids/container" 0o755).toInt = 0 then (0 : Int)
                else if (env.mkdir "/sys/fs/cgroup/pids/container" 0o755).errno = EEXIST then 0
                else -1) < 0 then []
             else
              (write_to_file env "/sys/fs/cgroup/pids/container/pids.max" "20").trace ++
              ((write_to_file env "/sys/fs/cgroup/pids/container/notify_on_release" "1").trace ++
              (.sys .getpid (env.getpid : Int) ::
              (write_to_file env "/sys/fs/cgroup/pids/container/cgroup.procs"
                (snprintf 32 (toString (env.getpid : Int))).1).trace)))) := by
  unfold cg_join_and_limit
  simp only [Run.bind_def, Run.bind_trace, Run.bind_ctl, Run.ite_ctl, Run.ite_trace,
    Run.pure_ctl, Run.pure_trace, sysV_ctl, sysV_trace, sys0_ctl, sys0_trace, ensure_dir_ctl,
    ensure_dir_trace, write_to_file_ctl, snprintf_pids, snprintf_container, snprintf_pids_max,
    snprintf_notify, snprintf_procs, ResV.toInt]
  split_ifs <;> simp

theorem write_to_file_quiet (env : Env) (path content : String) :
    (write_to_file env path content).trace.all Event.isQuiet = true := by
  rw [write_to_file_trace]
  split_ifs <;> simp [Event.isQuiet]

theorem cg_join_and_limit_quiet (env : Env) :
    (cg_join_and_limit env).trace.all Event.isQuiet = true := by
  rw [cg_join_and_limit_trace]
  split_ifs <;> simp [Event.isQuiet, write_to_file_quiet]

theorem print_args_quiet (g_argc : Nat) (g_argv : List String) :
    (print_args g_argc g_argv).trace.all Event.isQuiet = true := by
  simp only [print_args, List.all_eq_true, List.mem_map]
  rintro e ⟨i, _, rfl⟩
  rfl

/-! ## `child` when a fatal setup step fails -/

theorem child_of_setup_failed (env : Env) (g_argc : Nat) (g_argv : List String)
    (h : ¬ setup_ok env) :
    (child env g_argc g_argv).ctl = .exit 1 ∧
      (child env g_argc g_argv).trace.all Event.isQuiet = true := by
  have hp := print_args_quiet g_argc g_argv
  rcases h1 : env.sethostname with _ | e1
  swap
  · unfold child
    simp [Run.bind_ctl, Run.bind_trace, Run.ite_ctl, Run.ite_trace, Res0.toInt, hp,
      Event.isQuiet, snprintf,
      h1]
  rcases h2 : env.unshare with _ | e2
  swap
  · unfold child
    simp [Run.bind_ctl, Run.bind_trace, Run.ite_ctl, Run.ite_trace, Res0.toInt, hp,
      Event.isQuiet, snprintf,
      h1, h2]
  rcases h3 : env.mount "/" with _ | e3
  swap
  · unfold child
    simp [Run.bind_ctl, Run.bind_trace, Run.ite_ctl, Run.ite_trace, Res0.toInt, hp,
      Event.isQuiet, snprintf,
      h1, h2, h3]
  rcases h4 : env.getcwd with _ | cwd
  · unfold child
    simp [Run.bind_ctl, Run.bind_trace, Run.ite_ctl, Run.ite_trace, Res0.toInt, hp,
      Event.isQuiet, snprintf,
      h1, h2, h3, h4]
  by_cases h5 : (cwd ++ "/" ++ ROOTFS_DIR).utf8ByteSize < PATH_MAX
  swap
  · unfold child
    simp [Run.bind_ctl, Run.bind_trace, Run.ite_ctl, Run.ite_trace, Res0.toInt, hp,
      Event.isQuiet, snprintf,
      h1, h2, h3, h4, not_lt.mp h5]
  rcases h6 : env.chroot with _ | e6
  swap
  · unfold child
    simp [Run.bind_ctl, Run.bind_trace, Run.ite_ctl, Run.ite_trace, Res0.toInt, hp,
      Event.isQuiet, snprintf,
      h1, h2, h3, h4, not_le.mpr h5, h6, ensure_dir_ctl, ensure_dir_trace]
  rcases h7 : env.chdir with _ | e7
  swap
  · unfold child
    simp [Run.bind_ctl, Run.bind_trace, Run.ite_ctl, Run.ite_trace, Res0.toInt, hp,
      Event.isQuiet, snprintf,
      h1, h2, h3, h4, not_le.mpr h5, h6, h7, ensure_dir_ctl, ensure_dir_trace]
  rcases h8 : env.mount "proc" with _ | e8
  swap
  · unfold child
    simp [Run.bind_ctl, Run.bind_trace, Run.ite_ctl, Run.ite_trace, Res0.toInt, hp,
      Event.isQuiet, snprintf,
      h1, h2, h3, h4, not_le.mpr h5, h6, h7, h8, ensure_dir_ctl, ensure_dir_trace]
  rcases h9 : env.mount "mytemp" with _ | e9
  swap
  · unfold child
    simp [Run.bind_ctl, Run.bind_trace, Run.ite_ctl, Run.ite_trace, Res0.toInt, hp,
      Event.isQuiet, snprintf,
      h1, h2, h3, h4, not_le.mpr h5, h6, h7, h8, h9, ensure_dir_ctl, ensure_dir_trace]
  exact absurd ⟨h1, h2, h3, ⟨cwd, h4, h5⟩, h6, h7, h8, h9⟩ h

/-! ## `child` after a successful setup -/

theorem child_trace_forked_no_command (env : Env) (g_argc : Nat) (g_argv : List String)
    (cwd : String) (h1 : env.sethostname = .ok) (h2 : env.unshare = .ok)
    (h3 : env.mount "/" = .ok) (h4 : env.getcwd = some cwd)
    (h5 : (cwd ++ "/" ++ ROOTFS_DIR).utf8ByteSize < PATH_MAX) (h6 : env.chroot = .ok)
    (h7 : env.chdir = .ok) (h8 : env.mount "proc" = .ok) (h9 : env.mount "mytemp" = .ok)
    (hfork : env.fork = .ok 0) (hargc : g_argc < 3) :
    (child env g_argc g_argv).ctl = .exit 1 ∧
    (child env g_argc g_argv).trace =
      (setup_trace env g_argc g_argv cwd ++ (cg_join_and_limit env).trace ++
        [.sys .fork 0]) ++ [no_command_report] := by
  unfold child
  simp [Run.bind_ctl, Run.bind_trace, Run.ite_ctl, Run.ite_trace, Res0.toInt, ResV.toInt,
    snprintf, h1, h2, h3, h4, not_le.mpr h5, h6, h7, h8, h9, hfork, hargc, ensure_dir_ctl,
    ensure_dir_trace, cg_join_and_limit_ctl, setup_trace, no_command_report]

theorem handle_child_exit_quiet (status : Int) :
    (handle_child_exit status).trace.all Event.isQuiet = true := by
  unfold handle_child_exit
  split_ifs <;> simp [Run.bind_trace, Event.isQuiet]

theorem child_quiet_of_fork_failed (env : Env) (g_argc : Nat) (g_argv : List String)
    (hsetup : setup_ok env) (e : Nat) (hfork : env.fork = .err e) :
    (child env g_argc g_argv).ctl = .exit 1 ∧
      (child env g_argc g_argv).trace.all Event.isQuiet = true := by
  obtain ⟨h1, h2, h3, ⟨cwd, h4, h5⟩, h6, h7, h8, h9⟩ := hsetup
  have hp := print_args_quiet g_argc g_argv
  have hc := cg_join_and_limit_quiet env
  unfold child
  simp [Run.bind_ctl, Run.bind_trace, Run.ite_ctl, Run.ite_trace, Res0.toInt, ResV.toInt,
    snprintf, h1, h2, h3, h4, not_le.mpr h5, h6, h7, h8, h9, hfork, ensure_dir_ctl,
    ensure_dir_trace, cg_join_and_limit_ctl, Event.isQuiet, hp, hc]

theorem child_quiet_of_parent (env : Env) (g_argc : Nat) (g_argv : List String)
    (hsetup : setup_ok env) (pid : Nat) (hfork : env.fork = .ok (pid + 1)) :
    (child env g_argc g_argv).trace.all Event.isQuiet = true := by
  obtain ⟨h1, h2, h3, ⟨cwd, h4, h5⟩, h6, h7, h8, h9⟩ := hsetup
  have hp := print_args_quiet g_argc g_argv
  have hc := cg_join_and_limit_quiet env
  have hh := handle_child_exit_quiet
  have hp1 : ¬ ((pid : Int) + 1 < 0) := by omega
  have hp2 : ¬ ((pid : Int) + 1 = 0) := by omega
  unfold child
  rcases hu1 : env.umount2 "proc" with _ | e1 <;>
  rcases hu2 : env.umount2 "mytemp" with _ | e2 <;>
  rcases hw : env.waitpid with q | e3 <;>
  simp [Run.bind_ctl, Run.bind_trace, Run.ite_ctl, Run.ite_trace, Res0.toInt, ResV.toInt,
    snprintf, h1, h2, h3, h4, not_le.mpr h5, h6, h7, h8, h9, hfork, ensure_dir_ctl,
    ensure_dir_trace, cg_join_and_limit_ctl, Event.isQuiet, hp, hc, hh, hp1, hp2, hu1, hu2, hw]

theorem child_trace_parent (env : Env) (g_argc : Nat) (g_argv : List String)
    (cwd : String) (h1 : env.sethostname = .ok) (h2 : env.unshare = .ok)
    (h3 : env.mount "/" = .ok) (h4 : env.getcwd = some cwd)
    (h5 : (cwd ++ "/" ++ ROOTFS_DIR).utf8ByteSize < PATH_MAX) (h6 : env.chroot = .ok)
    (h7 : env.chdir = .ok) (h8 : env.mount "proc" = .ok) (h9 : env.mount "mytemp" = .ok)
    (pid : Nat) (hfork : env.fork = .ok (pid + 1))
    (hu1 : env.umount2 "proc" = .ok) (hu2 : env.umount2 "mytemp" = .ok) :
    (child env g_argc g_argv).trace =
      setup_trace env g_argc g_argv cwd ++ (cg_join_and_limit env).trace ++
        ([.sys .fork ((pid : Int) + 1), .sys (.waitpid ((pid : Int) + 1)) env.waitpid.toInt] ++
          (if env.waitpid.toInt < 0 then [.stderr "waitpid"] else []) ++
          [.sys (.umount2 "proc" 0) 0, .sys (.umount2 "mytemp" 0) 0] ++
          (handle_child_exit (match env.waitpid with
            | .ok _ => env.wstatus
            | .err _ => 0)).trace) := by
  have hp1 : ¬ ((pid : Int) + 1 < 0) := by omega
  have hp2 : ¬ ((pid : Int) + 1 = 0) := by omega
  unfold child
  rcases hw : env.waitpid with q | e3 <;>
  simp [Run.bind_ctl, Run.bind_trace, Run.ite_ctl, Run.ite_trace, Res0.toInt, ResV.toInt,
    snprintf, h1, h2, h3, h4, not_le.mpr h5, h6, h7, h8, h9, hfork, ensure_dir_ctl,
    ensure_dir_trace, cg_join_and_limit_ctl, hp1, hp2, hu1, hu2, hw, setup_trace]

theorem quiet_not_report (tr : List Event) (h : tr.all Event.isQuiet = true) :
    no_command_report ∉ tr := by
  intro hmem
  have := List.all_eq_true.mp h _ hmem
  simp [Event.isQuiet, no_command_report] at this

theorem quiet_not_execvp (tr : List Event) (h : tr.all Event.isQuiet = true) :
    ∀ e ∈ tr, e.isExecvp = false := by
  intro e hmem
  have hq := List.all_eq_true.mp h _ hmem
  cases e with
  | sys c r => cases c <;> first | rfl | simp [Event.isQuiet] at hq
  | stdout s => rfl
  | stderr s => rfl

theorem setup_trace_quiet (env : Env) (g_argc : Nat) (g_argv : List String) (cwd : String) :
    (setup_trace env g_argc g_argv cwd).all Event.isQuiet = true := by
  have hp := print_args_quiet g_argc g_argv
  simp [setup_trace, Event.isQuiet, hp]

theorem child_forked_exec (env : Env) (g_argc : Nat) (g_argv : List String)
    (hsetup : setup_ok env) (hfork : env.fork = .ok 0) (hargc : 3 ≤ g_argc) :
    (child env g_argc g_argv).ctl =
      (match env.execvp with
        | none => .exec ((g_argv.drop 2).head?.getD "") (g_argv.drop 2)
        | some _ => .exit 127) ∧
    Event.sys (.execvp (g_argv.drop 2).head? (g_argv.drop 2))
        (match env.execvp with
          | none => 0
          | some _ => -1) ∈ (child env g_argc g_argv).trace := by
  obtain ⟨h1, h2, h3, ⟨cwd, h4, h5⟩, h6, h7, h8, h9⟩ := hsetup
  have hn : ¬ (g_argc < 3) := by omega
  unfold child
  rcases hx : env.execvp with _ | e <;>
  simp [Run.bind_ctl, Run.bind_trace, Run.ite_ctl, Run.ite_trace, Res0.toInt, ResV.toInt,
    snprintf, h1, h2, h3, h4, not_le.mpr h5, h6, h7, h8, h9, hfork, hn, ensure_dir_ctl,
    ensure_dir_trace, cg_join_and_limit_ctl, exec_call, hx]

theorem main_trace_child (env : Env) (argc : Nat) (argv : List String) (h2 : 2 ≤ argc)
    (hcmd : argv.getD 1 "(null)" = "child") :
    (main env argc argv).trace = (child env argc argv).trace := by
  have h : ¬ (argc < 2) := by omega
  simp only [List.getD_eq_getElem?_getD] at hcmd
  unfold main
  cases hc : (child env argc argv).ctl <;>
    simp [Run.bind_trace, Run.ite_trace, h, hcmd, hc]

/-! ## `child_main` -/

theorem set_length_append (pfx : Slots) (y x : Option String) (rest : Slots) :
    (pfx ++ y :: rest).set pfx.length x = pfx ++ x :: rest := by
  induction pfx with
  | nil => rfl
  | cons p ps ih => simp [ih]

theorem store_loop (v : Nat → Option String) :
    ∀ (n : Nat) (pfx rest : Slots), n ≤ rest.length →
      List.foldlM (fun a j => store a j (v j)) (pfx ++ rest) (List.range' pfx.length n) =
        (⟨.ret (pfx ++ (List.range' pfx.length n).map v ++ rest.drop n), []⟩ : Run Slots) := by
  intro n
  induction n with
  | zero =>
    intro pfx rest _
    simp [pure]
  | succ n ih =>
    intro pfx rest hk
    cases rest with
    | nil => simp at hk
    | cons y rest =>
      have hstore : store (pfx ++ y :: rest) pfx.length (v pfx.length) =
          (⟨.ret ((pfx ++ [v pfx.length]) ++ rest), []⟩ : Run Slots) := by
        unfold store
        rw [if_pos (by simp)]
        simp [set_length_append, pure]
      have hih := ih (pfx ++ [v pfx.length]) rest (by simpa using hk)
      simp only [List.length_append, List.length_singleton] at hih
      rw [List.range'_succ, List.foldlM_cons, hstore]
      simp only [Run.bind_def, Run.bind, hih]
      simp [List.range'_succ]

theorem malloc_block_shape (g : Nat → Option String) (m : Nat) :
    ∃ g0 g1 rest y, (List.range (m + 2 + 1)).map g = g0 :: g1 :: rest ∧
      rest.length = m + 1 ∧ rest.drop m = [y] := by
  have hlen : ((List.range (m + 2 + 1)).map g).length = m + 3 := by simp
  generalize (List.range (m + 2 + 1)).map g = block at hlen
  match block, hlen with
  | g0 :: g1 :: rest, hlen =>
    have hr : rest.length = m + 1 := by simpa using hlen
    have hd : (rest.drop m).length = 1 := by simp [hr]
    match hrd : rest.drop m, hd with
    | [y], _ => exact ⟨g0, g1, rest, y, rfl, hr, hrd⟩

theorem map_get?_range' (l : List String) (i : Nat) :
    (List.range' i (l.length - i)).map (fun j => l.get? j) = (l.drop i).map some := by
  apply List.ext_getElem
  · simp
  · intro n h1 h2
    simp [List.getElem_range']

theorem c_vector_map_some (l : List String) (rest : Slots) :
    c_vector (l.map some ++ none :: rest) = l := by
  induction l with
  | nil => rfl
  | cons x xs ih => simp [c_vector, ih]

theorem Run.bind_mk_ret {α β : Type} (a : α) (f : α → Run β) :
    Run.bind ⟨.ret a, []⟩ f = f a := by
  simp [Run.bind]

theorem child_main_eq (env : Env) (argc : Nat) (argv : List String)
    (hlen : argv.length = argc) (hargc : 2 ≤ argc) (hm : env.malloc = true) :
    (child_main env ⟨argv, argc⟩).ctl =
      (match env.execv with
        | none => .exec "/proc/self/exe" ("/proc/self/exe" :: "child" :: argv.drop 2)
        | some _ => .ret 1) ∧
    (child_main env ⟨argv, argc⟩).trace =
      .sys (.malloc (argc + 1)) 0 ::
      .sys (.execv "/proc/self/exe"
          (some "/proc/self/exe" :: some "child" :: ((argv.drop 2).map some ++ [none])))
        (match env.execv with
          | none => 0
          | some _ => -1) ::
      (match env.execv with
        | none => []
        | some _ => [.stderr "execv failed", .sys .free 0]) := by
  obtain ⟨m, rfl⟩ : ∃ m, argc = m + 2 := ⟨argc - 2, by omega⟩
  obtain ⟨g0, g1, rest, y, hblock, hrest, hdrop⟩ := malloc_block_shape env.garbage m
  have hs0 : store (g0 :: g1 :: rest) 0 (some "/proc/self/exe") =
      (⟨.ret (some "/proc/self/exe" :: g1 :: rest), []⟩ : Run Slots) := by
    simp [store, pure]
  have hs1 : store (some "/proc/self/exe" :: g1 :: rest) 1 (some "child") =
      (⟨.ret ([some "/proc/self/exe", some "child"] ++ rest), []⟩ : Run Slots) := by
    simp [store, pure]
  have hloop := store_loop (fun j => argv.get? j) m [some "/proc/self/exe", some "child"]
    rest (by omega)
  have hmap := map_get?_range' argv 2
  rw [hlen] at hmap
  simp only [Nat.add_sub_cancel] at hmap
  simp only [List.length_cons, List.length_nil, Nat.zero_add, Nat.reduceAdd, hmap, hdrop]
    at hloop
  have hs3 : store ([some "/proc/self/exe", some "child"] ++ (argv.drop 2).map some ++ [y])
      (m + 2) none =
      (⟨.ret ([some "/proc/self/exe", some "child"] ++ (argv.drop 2).map some ++ [none]), []⟩ :
        Run Slots) := by
    have hl : ([some "/proc/self/exe", some "child"] ++ (argv.drop 2).map some).length =
        m + 2 := by
      simp [hlen]
    unfold store
    rw [if_pos (by simp [hlen])]
    rw [← hl]
    simp only [set_length_append, pure]
  unfold child_main
  simp only [Run.bind_def, hm, Bool.not_true, hblock, hs0, Run.bind_mk_ret, hs1,
    Nat.add_sub_cancel, hloop, hs3]
  rcases hx : env.execv with _ | e
  · simp [Run.bind_ctl, Run.bind_trace, exec_call, c_vector, Res0.toInt]
    rw [← List.map_drop]
    exact c_vector_map_some _ _
  · simp [Run.bind_ctl, Run.bind_trace, exec_call, c_vector, Res0.toInt]

/-! ## The mount table along a trace -/

theorem mount_step_of_keepsMounts (tbl : List String) (e : Event)
    (h : e.keepsMounts = true) : mount_step tbl e = tbl := by
  cases e with
  | sys c r => cases c <;> first | rfl | simp [Event.keepsMounts] at h
  | stdout s => rfl
  | stderr s => rfl

theorem foldl_mount_step_neutral (tr : List Event)
    (h : tr.all Event.keepsMounts = true) (tbl : List String) :
    tr.foldl mount_step tbl = tbl := by
  induction tr generalizing tbl with
  | nil => rfl
  | cons e es ih =>
    simp only [List.all_cons, Bool.and_eq_true] at h
    rw [List.foldl_cons, mount_step_of_keepsMounts tbl e h.1]
    exact ih h.2 tbl

theorem write_to_file_keepsMounts (env : Env) (path content : String) :
    (write_to_file env path content).trace.all Event.keepsMounts = true := by
  rw [write_to_file_trace]
  split_ifs <;> simp [Event.keepsMounts]

theorem cg_join_and_limit_keepsMounts (env : Env) :
    (cg_join_and_limit env).trace.all Event.keepsMounts = true := by
  rw [cg_join_and_limit_trace]
  split_ifs <;> simp [Event.keepsMounts, write_to_file_keepsMounts]

theorem print_args_keepsMounts (g_argc : Nat) (g_argv : List String) :
    (print_args g_argc g_argv).trace.all Event.keepsMounts = true := by
  simp only [print_args, List.all_eq_true, List.mem_map]
  rintro e ⟨i, _, rfl⟩
  rfl

theorem handle_child_exit_keepsMounts (status : Int) :
    (handle_child_exit status).trace.all Event.keepsMounts = true := by
  unfold handle_child_exit
  split_ifs <;> simp [Run.bind_trace, Event.keepsMounts]

/-! ## Every trace of `child` starts with the setup events -/

theorem child_trace_setup (env : Env) (g_argc : Nat) (g_argv : List String)
    (cwd : String) (h1 : env.sethostname = .ok) (h2 : env.unshare = .ok)
    (h3 : env.mount "/" = .ok) (h4 : env.getcwd = some cwd)
    (h5 : (cwd ++ "/" ++ ROOTFS_DIR).utf8ByteSize < PATH_MAX) (h6 : env.chroot = .ok)
    (h7 : env.chdir = .ok) (h8 : env.mount "proc" = .ok) (h9 : env.mount "mytemp" = .ok) :
    ∃ rest, (child env g_argc g_argv).trace =
      setup_trace env g_argc g_argv cwd ++
        ((cg_join_and_limit env).trace ++ .sys .fork env.fork.toInt :: rest) := by
  unfold child
  simp [Run.bind_ctl, Run.bind_trace, Res0.toInt, snprintf, h1, h2, h3, h4, not_le.mpr h5,
    h6, h7, h8, h9, ensure_dir_ctl, ensure_dir_trace, cg_join_and_limit_ctl, setup_trace]

theorem child_ctl_mkdir_irrelevant (env : Env) (f : String → Nat → Res0) (g_argc : Nat)
    (g_argv : List String) :
    (child { env with mkdir := f } g_argc g_argv).ctl = (child env g_argc g_argv).ctl := by
  unfold child
  rcases hg : env.getcwd with _ | cwd
  · simp [Run.bind_ctl, hg]
  · by_cases h5 : PATH_MAX ≤ (snprintf PATH_MAX (cwd ++ "/" ++ ROOTFS_DIR)).2
    · simp [Run.bind_ctl, hg, h5]
    · simp [Run.bind_ctl, hg, h5, ensure_dir_ctl, cg_join_and_limit_ctl, waitpid]

/-! ## Formatting the process id -/

theorem digitChar_utf8Size : ∀ k, k < 10 → (Nat.digitChar k).utf8Size = 1 := by
  decide

theorem toDigitsCore_ascii : ∀ (fuel n : Nat) (ds : List Char),
    String.utf8Len ds = ds.length →
      String.utf8Len (Nat.toDigitsCore 10 fuel n ds) = (Nat.toDigitsCore 10 fuel n ds).length := by
  intro fuel
  induction fuel with
  | zero =>
    intro n ds h
    simpa [Nat.toDigitsCore] using h
  | succ fuel ih =>
    intro n ds h
    have hd : (Nat.digitChar (n % 10)).utf8Size = 1 :=
      digitChar_utf8Size _ (Nat.mod_lt _ (by decide))
    have hcons : String.utf8Len (Nat.digitChar (n % 10) :: ds) =
        (Nat.digitChar (n % 10) :: ds).length := by
      simp [h, hd]
    simp only [Nat.toDigitsCore]
    split_ifs
    · exact hcons
    · exact ih _ _ hcons

theorem snprintf_pid (pid : Nat) (h : pid < 2 ^ 31) :
    (snprintf 32 (toString (pid : Int))).1 = toString pid := by
  have h1 : toString (pid : Int) = toString pid := rfl
  have h2 : (toString pid).utf8ByteSize = (toString pid).length := by
    show (Nat.repr pid).utf8ByteSize = (Nat.repr pid).length
    simp only [Nat.repr, Nat.toDigits, List.asString, String.utf8ByteSize_mk, String.length]
    exact toDigitsCore_ascii _ _ _ rfl
  have h3 : (toString pid).length ≤ 10 :=
    Nat.repr_length pid 10 (by decide) (by omega)
  rw [h1]
  unfold snprintf
  rw [if_pos (by omega)]

/-! ## Opens and writes along a trace -/

theorem opens_of_append (a b : List Event) : opens_of (a ++ b) = opens_of a ++ opens_of b := by
  induction a with
  | nil => rfl
  | cons e es ih =>
    cases e with
    | sys c r => cases c <;> simp [opens_of, ih]
    | stdout s => simp [opens_of, ih]
    | stderr s => simp [opens_of, ih]

theorem writes_of_append (a b : List Event) :
    writes_of (a ++ b) = writes_of a ++ writes_of b := by
  induction a with
  | nil => rfl
  | cons e es ih =>
    cases e with
    | sys c r => cases c <;> simp [writes_of, ih]
    | stdout s => simp [writes_of, ih]
    | stderr s => simp [writes_of, ih]

theorem opens_of_write_to_file (env : Env) (path content : String) :
    opens_of (write_to_file env path content).trace = [path] := by
  rw [write_to_file_trace]
  split_ifs <;> simp [opens_of]

theorem writes_of_write_to_file (env : Env) (path content : String) :
    writes_of (write_to_file env path content).trace =
      if (env.open_ path).toInt ≥ 0 then [((env.open_ path).toInt, content)] else [] := by
  rw [write_to_file_trace]
  split_ifs <;> simp [writes_of]

/-! ## C1 -/

/-- C1: for every status word, `handle_child_exit` exits with the code `c` when the status
says "exited with code `c`" and with `128 + s` when it says "killed by signal `s`"; the
process exit code is exactly that value (it fits the eight bits of an exit code); the two
cases exclude each other; and every path ends in `exit`, so the function never returns. -/
theorem handle_child_exit_maps_status (status c s : Int) :
    (WIFEXITED status = true → WEXITSTATUS status = c →
      (handle_child_exit status).ctl = .exit c ∧ (exit_code c : Int) = c) ∧
    (WIFSIGNALED status = true → WTERMSIG status = s →
      (handle_child_exit status).ctl = .exit (128 + s) ∧
        (exit_code (128 + s) : Int) = 128 + s) ∧
    ¬ (WIFEXITED status = true ∧ WIFSIGNALED status = true) ∧
    (∃ code, (handle_child_exit status).ctl = .exit code) := by
  have hexcl : ¬ (WIFEXITED status = true ∧ WIFSIGNALED status = true) := by
    rw [WIFEXITED_iff, WIFSIGNALED_iff]
    omega
  refine ⟨?_, ?_, hexcl, ?_⟩
  · intro he hc
    subst hc
    refine ⟨by rw [handle_child_exit_ctl, if_pos he], ?_⟩
    exact exit_code_of_byte _ (WEXITSTATUS_range status).1 (WEXITSTATUS_range status).2
  · intro hs hc
    subst hc
    have hne : ¬ (WIFEXITED status = true) := fun he => hexcl ⟨he, hs⟩
    refine ⟨by rw [handle_child_exit_ctl, if_neg hne, if_pos hs], ?_⟩
    rw [WIFSIGNALED_iff] at hs
    unfold exit_code WTERMSIG
    omega
  · rw [handle_child_exit_ctl]
    split_ifs
    · exact ⟨_, rfl⟩
    · exact ⟨_, rfl⟩
    · exact ⟨_, rfl⟩

/-- Witness for C1: status 0x0700 (exit 7) gives exit code 7, status 9 (SIGKILL) gives 137. -/
theorem handle_child_exit_maps_status_witness :
    (handle_child_exit 1792).ctl = .exit 7 ∧ (handle_child_exit 9).ctl = .exit 137 :=
  ⟨((handle_child_exit_maps_status 1792 7 9).1 (by decide) (by decide)).1,
   ((handle_child_exit_maps_status 9 0 9).2.1 (by decide) (by decide)).1⟩


/-! ## C2 -/

/-- C2: exit-status propagation across both process levels.  The user program ends with a
termination `t` the kernel can report (exit code at most 255, or a signal); the isolation
process (`main` with sub-command `child`, environment `env1`) completes its setup, waits
successfully and unmounts successfully; the launcher (`main` with sub-command `run`,
environment `env2`) creates the process, waits successfully and receives the status word of
the isolation process.  Then both processes exit with the code of the mapping of
the specification, `c` or `128 + s`; that code is the exit code observed (it fits eight bits); and
mapping the resulting normal exit again gives the same outcome as mapping once. -/
theorem exit_status_propagation (env1 env2 : Env) (argc1 argc2 : Nat)
    (argv1 argv2 : List String) (pid p1 p2 q2 : Nat) (t : Termination)
    (ht : t.wellFormed)
    (hargc1 : 2 ≤ argc1) (hcmd1 : argv1.getD 1 "(null)" = "child")
    (hargc2 : 2 ≤ argc2) (hcmd2 : argv2.getD 1 "(null)" = "run")
    (hsetup : setup_ok env1) (hfork : env1.fork = .ok (pid + 1))
    (hwait1 : env1.waitpid = .ok p1) (hstatus1 : env1.wstatus = wait_status t)
    (hu1 : env1.umount2 "proc" = .ok) (hu2 : env1.umount2 "mytemp" = .ok)
    (hclone : env2.clone = .ok p2) (hwait2 : env2.waitpid = .ok q2)
    (hstatus2 : ∀ k, (main env1 argc1 argv1).ctl = .exit k →
      env2.wstatus = wait_status (termination_of_exit k)) :
    (main env1 argc1 argv1).ctl = .exit (spec_exit_code t) ∧
    (main env2 argc2 argv2).ctl = .exit (spec_exit_code t) ∧
    (exit_code (spec_exit_code t) : Int) = spec_exit_code t ∧
    (handle_child_exit (wait_status (termination_of_exit (spec_exit_code t)))).ctl =
      (handle_child_exit (wait_status t)).ctl := by
  have hr := spec_exit_code_range t ht
  have hcode : (exit_code (spec_exit_code t) : Int) = spec_exit_code t :=
    exit_code_of_byte _ hr.1 hr.2
  have hchild : (child env1 argc1 argv1).ctl = .exit (spec_exit_code t) := by
    rw [child_parent_ctl env1 argc1 argv1 pid hsetup hfork hu1 hu2, hwait1, hstatus1]
    exact handle_child_exit_wait_status t ht
  have hmain1 := main_ctl_child env1 argc1 argv1 hargc1 hcmd1 _ hchild
  have hagain : (handle_child_exit
      (wait_status (termination_of_exit (spec_exit_code t)))).ctl =
      .exit (spec_exit_code t) := by
    rw [handle_child_exit_wait_status _ (termination_of_exit_wellFormed _)]
    show Ctl.exit ((exit_code (spec_exit_code t) : Nat) : Int) = Ctl.exit (spec_exit_code t)
    rw [hcode]
  refine ⟨hmain1, ?_, hcode, ?_⟩
  · apply main_ctl_run env2 argc2 argv2 hargc2 hcmd2
    rw [run_ctl_of_waited env2 argc2 argv2 p2 q2 hclone hwait2, hstatus2 _ hmain1]
    exact hagain
  · rw [hagain, handle_child_exit_wait_status t ht]

/-- Witness for C2: the user program is killed by signal 9; both levels exit with 137. -/
theorem exit_status_propagation_witness :
    (main (env_ok (wait_status (.signaled 9 false))) 3 ["/proc/self/exe", "child", "sh"]).ctl =
      .exit 137 ∧
    (main (env_ok (wait_status (.exited 137))) 3 ["container", "run", "sh"]).ctl = .exit 137 :=
  have h := exit_status_propagation (env_ok (wait_status (.signaled 9 false)))
    (env_ok (wait_status (.exited 137))) 3 3 ["/proc/self/exe", "child", "sh"]
    ["container", "run", "sh"] 1 2 4242 2 (.signaled 9 false)
    (by decide) (by decide) (by decide) (by decide) (by decide)
    ⟨rfl, rfl, rfl, ⟨"/home/user", rfl, by decide⟩, rfl, rfl, rfl, rfl⟩
    rfl rfl rfl rfl rfl rfl rfl
    (by
      intro k hk
      have h137 : k = 137 := by
        have h0 : (main (env_ok (wait_status (.signaled 9 false))) 3
            ["/proc/self/exe", "child", "sh"]).ctl = .exit 137 := by decide
        rw [h0] at hk
        injection hk with hk
        exact hk.symm
      subst h137
      rfl)
  ⟨h.1, h.2.1⟩

/-! ## C3 -/

/-- C3 (counterexample): with sub-command `child` and no command (argc = 2) the process
that reports "no command provided" and exits 1 has, before the report, performed sandbox
calls (sethostname, unshare, mount, chroot, fork): the report comes from the forked
process, not before the fork. -/
theorem no_command_counterexample :
    (main env_forked 2 ["/proc/self/exe", "child"]).ctl = .exit 1 ∧
    (main env_forked 2 ["/proc/self/exe", "child"]).trace.getLast? = some no_command_report ∧
    ¬ ((main env_forked 2 ["/proc/self/exe", "child"]).trace.all
        (fun e => !e.isSandbox) = true) := by
  decide

/-- C3 (amended): when no command is supplied (`g_argc < 3`), `child` never calls `execvp`;
the missing command is reported only by the forked process, that is, whenever
"no command provided" is written the process exits 1, the report is the last event, and
before it the successful sethostname, unshare, private-mount, chroot, proc and tmpfs mounts
and the `fork` returning 0 have all been performed; and the report does occur whenever the
setup succeeded and `fork` returned 0.  The launcher `run` does not look at the command at
all: it always calls `clone` and never writes the report. -/
theorem no_command_reported_after_fork (env : Env) (g_argc : Nat) (g_argv : List String)
    (hargc : g_argc < 3) :
    (∀ e ∈ (child env g_argc g_argv).trace, e.isExecvp = false) ∧
    (no_command_report ∈ (child env g_argc g_argv).trace →
      (child env g_argc g_argv).ctl = .exit 1 ∧
      ∃ pre, (child env g_argc g_argv).trace = pre ++ [no_command_report] ∧
        .sys (.sethostname HOSTNAME HOSTNAME.utf8ByteSize) 0 ∈ pre ∧
        .sys (.unshare CLONE_NEWNS) 0 ∈ pre ∧
        .sys (.mount none "/" none (MS_REC ||| MS_PRIVATE)) 0 ∈ pre ∧
        (∃ p, .sys (.chroot p) 0 ∈ pre) ∧
        .sys (.mount (some "proc") "proc" (some "proc") 0) 0 ∈ pre ∧
        .sys (.mount (some "thing") "mytemp" (some "tmpfs") 0) 0 ∈ pre ∧
        .sys .fork 0 ∈ pre) ∧
    (setup_ok env → env.fork = .ok 0 →
      no_command_report ∈ (child env g_argc g_argv).trace) ∧
    (.sys (.clone (CLONE_NEWUTS ||| CLONE_NEWPID ||| CLONE_NEWNS ||| SIGCHLD)) env.clone.toInt
        ∈ (run env g_argc g_argv).trace ∧
      no_command_report ∉ (run env g_argc g_argv).trace) := by
  have hrun : (.sys (.clone (CLONE_NEWUTS ||| CLONE_NEWPID ||| CLONE_NEWNS ||| SIGCHLD))
        env.clone.toInt ∈ (run env g_argc g_argv).trace ∧
      no_command_report ∉ (run env g_argc g_argv).trace) := by
    constructor
    · unfold run
      simp [Run.bind_trace]
    · apply quiet_not_report
      have hh := handle_child_exit_quiet
      unfold run
      rcases hc : env.clone with p | e <;> rcases hw : env.waitpid with q | e2 <;>
        simp [Run.bind_ctl, Run.bind_trace, Run.ite_ctl, Run.ite_trace, ResV.toInt, hc, hw,
          Event.isQuiet, hh]
  by_cases hs : setup_ok env
  · rcases hf : env.fork with p | e
    · cases p with
      | zero =>
        obtain ⟨h1, h2, h3, ⟨cwd, h4, h5⟩, h6, h7, h8, h9⟩ := hs
        obtain ⟨hctl, htr⟩ := child_trace_forked_no_command env g_argc g_argv cwd
          h1 h2 h3 h4 h5 h6 h7 h8 h9 hf hargc
        have hpre : (setup_trace env g_argc g_argv cwd ++ (cg_join_and_limit env).trace ++
            [Event.sys .fork 0]).all Event.isQuiet = true := by
          simp [setup_trace_quiet, cg_join_and_limit_quiet, Event.isQuiet]
        refine ⟨?_, ?_, ?_, hrun⟩
        · intro e he
          rw [htr, List.mem_append] at he
          rcases he with he | he
          · exact quiet_not_execvp _ hpre e he
          · simp only [List.mem_singleton] at he
            subst he
            rfl
        · intro _
          exact ⟨hctl, _, htr, by simp [setup_trace], by simp [setup_trace],
            by simp [setup_trace], ⟨cwd ++ "/" ++ ROOTFS_DIR, by simp [setup_trace]⟩,
            by simp [setup_trace], by simp [setup_trace], by simp [setup_trace]⟩
        · intro _ _
          rw [htr]
          simp
      | succ p =>
        have hq := child_quiet_of_parent env g_argc g_argv hs p hf
        refine ⟨quiet_not_execvp _ hq, ?_, ?_, hrun⟩
        · intro hmem
          exact absurd hmem (quiet_not_report _ hq)
        · intro _ h0
          simp at h0
    · have hq := (child_quiet_of_fork_failed env g_argc g_argv hs e hf).2
      refine ⟨quiet_not_execvp _ hq, ?_, ?_, hrun⟩
      · intro hmem
        exact absurd hmem (quiet_not_report _ hq)
      · intro _ h0
        simp at h0
  · have hq := (child_of_setup_failed env g_argc g_argv hs).2
    refine ⟨quiet_not_execvp _ hq, ?_, ?_, hrun⟩
    · intro hmem
      exact absurd hmem (quiet_not_report _ hq)
    · intro h0
      exact absurd h0 hs

/-- Witness for C3 (amended): in the forked process with argc = 2 the report is written,
the process exits 1 and the `fork` precedes the report. -/
theorem no_command_reported_after_fork_witness :
    no_command_report ∈ (child env_forked 2 ["/proc/self/exe", "child"]).trace ∧
    (child env_forked 2 ["/proc/self/exe", "child"]).ctl = .exit 1 :=
  have h := no_command_reported_after_fork env_forked 2 ["/proc/self/exe", "child"]
    (by decide)
  have hmem := h.2.2.1 ⟨rfl, rfl, rfl, ⟨"/home/user", rfl, by decide⟩, rfl, rfl, rfl, rfl⟩ rfl
  ⟨hmem, (h.2.1 hmem).1⟩

/-! ## C4 -/

/-- C4: re-exec argument forwarding.  For every argument vector `argv` of length
`argc ≥ 2`, no store of `child_main` falls outside the `argc + 1` allocated slots (in every
environment), and when `malloc` succeeds `child_main` calls `execv` on "/proc/self/exe"
with a block `new_argv` of exactly `argc + 1` slots: slot 0 is "/proc/self/exe", slot 1 is
"child", slot `i` is `argv[i]` for `2 ≤ i < argc`, slot `argc` is NULL.  The vector it
denotes has `argc` entries and its tail from index 2 is the original command tail; when
`execv` succeeds the new image receives that vector, and the forked process of the
re-invoked `child` (setup succeeded, `argc ≥ 3`) passes exactly the original tail
`argv[2..]` to `execvp`. -/
theorem child_main_forwards_argv (env env2 : Env) (argc : Nat) (argv : List String)
    (hlen : argv.length = argc) (hargc : 2 ≤ argc) :
    (child_main env ⟨argv, argc⟩).ctl ≠ .fault ∧
    (env.malloc = true →
      ∃ new_argv : Slots,
        new_argv = some "/proc/self/exe" :: some "child" :: ((argv.drop 2).map some ++ [none]) ∧
        (∃ r, Event.sys (.execv "/proc/self/exe" new_argv) r ∈
          (child_main env ⟨argv, argc⟩).trace) ∧
        new_argv.length = argc + 1 ∧
        new_argv.get? 0 = some (some "/proc/self/exe") ∧
        new_argv.get? 1 = some (some "child") ∧
        (∀ i, 2 ≤ i → i < argc → new_argv.get? i = some (argv.get? i)) ∧
        new_argv.get? argc = some none ∧
        c_vector new_argv = "/proc/self/exe" :: "child" :: argv.drop 2 ∧
        (c_vector new_argv).length = argc ∧
        (c_vector new_argv).drop 2 = argv.drop 2 ∧
        (env.execv = none →
          (child_main env ⟨argv, argc⟩).ctl = .exec "/proc/self/exe" (c_vector new_argv)) ∧
        (3 ≤ argc → setup_ok env2 → env2.fork = .ok 0 →
          ∃ r, Event.sys (.execvp (argv.get? 2) (argv.drop 2)) r ∈
            (main env2 argc (c_vector new_argv)).trace)) := by
  have hcv : c_vector (some "/proc/self/exe" :: some "child" ::
      ((argv.drop 2).map some ++ [none])) = "/proc/self/exe" :: "child" :: argv.drop 2 := by
    simp only [c_vector]
    rw [c_vector_map_some]
  constructor
  · cases hm : env.malloc
    · unfold child_main
      simp [Run.bind_ctl, Run.ite_ctl, hm]
    · rw [(child_main_eq env argc argv hlen hargc hm).1]
      cases env.execv <;> simp
  · intro hm
    obtain ⟨hctl, htr⟩ := child_main_eq env argc argv hlen hargc hm
    have hmem : Event.sys (.execv "/proc/self/exe" (some "/proc/self/exe" :: some "child" ::
        ((argv.drop 2).map some ++ [none])))
        (match env.execv with
          | none => 0
          | some _ => -1) ∈ (child_main env ⟨argv, argc⟩).trace := by
      rw [htr]
      exact List.mem_cons_of_mem _ (List.mem_cons_self _ _)
    refine ⟨_, rfl, ⟨_, hmem⟩, ?_, rfl, rfl, ?_, ?_, hcv, ?_, ?_, ?_, ?_⟩
    · simp [hlen]
      omega
    · intro i h2 hi
      obtain ⟨j, rfl⟩ : ∃ j, i = j + 2 := ⟨i - 2, by omega⟩
      have hj : j < (List.map some (List.drop 2 argv)).length := by
        simp [hlen]
        omega
      simp only [List.get?_eq_getElem?, List.getElem?_cons_succ]
      rw [List.getElem?_append_left hj]
      have hlt : j + 2 < argv.length := by omega
      simp [List.getElem?_drop, Nat.add_comm]
      exact ⟨argv[j + 2], List.getElem?_eq_getElem hlt, (List.getElem?_eq_getElem hlt).symm⟩
    · obtain ⟨m, rfl⟩ : ∃ m, argc = m + 2 := ⟨argc - 2, by omega⟩
      have hm2 : (List.map some (List.drop 2 argv)).length = m := by
        simp [hlen]
      simp only [List.get?_eq_getElem?, List.getElem?_cons_succ]
      rw [List.getElem?_append_right (by omega)]
      simp [hlen]
    · rw [hcv]
      simp [hlen]
      omega
    · rw [hcv]
      rfl
    · intro hx
      rw [hctl, hx, hcv]
    · intro h3 hs hf
      rw [hcv, main_trace_child env2 argc ("/proc/self/exe" :: "child" :: argv.drop 2)
        (by omega) rfl]
      have h := (child_forked_exec env2 argc ("/proc/self/exe" :: "child" :: argv.drop 2)
        hs hf h3).2
      simp only [List.drop_succ_cons, List.drop_zero, List.head?_drop] at h
      simp only [List.get?_eq_getElem?]
      exact ⟨_, h⟩

/-- Witness for C4: `run sh -c "exit 7"`, with a block whose slots all hold a non-NULL
indeterminate pointer when `malloc` returns it. -/
theorem child_main_forwards_argv_witness :
    (child_main (env_ok 0) ⟨["container", "run", "sh", "-c", "exit 7"], 5⟩).ctl =
      .exec "/proc/self/exe" ["/proc/self/exe", "child", "sh", "-c", "exit 7"] ∧
    (∃ r, Event.sys (.execv "/proc/self/exe" [some "/proc/self/exe", some "child", some "sh",
        some "-c", some "exit 7", none]) r ∈
      (child_main (env_ok 0) ⟨["container", "run", "sh", "-c", "exit 7"], 5⟩).trace) := by
  obtain ⟨v, hv, hmem, _, _, _, _, _, hc, _, _, hexec, _⟩ :=
    (child_main_forwards_argv (env_ok 0) env_forked 5
      ["container", "run", "sh", "-c", "exit 7"] rfl (by decide)).2 rfl
  subst hv
  exact ⟨by rw [hexec rfl, hc]; rfl, hmem⟩

/-! ## C5 -/

/-- C5 (counterexample): the forked process whose `execvp` fails exits with 127, and a user
program that was executed and itself exits with 127 gives the isolation process the very
same outcome: the two are not distinguishable. -/
theorem exec_failure_code_counterexample :
    (child env_exec_fails 3 ["/proc/self/exe", "child", "nope"]).ctl = .exit 127 ∧
    (Termination.exited 127).wellFormed ∧
    ¬ ((handle_child_exit (wait_status (termination_of_exit 127))).ctl ≠
        (handle_child_exit (wait_status (.exited 127))).ctl) := by
  decide

/-- C5 (amended): when `execvp` of the user program fails, the forked process exits with
127.  The isolation process maps that termination to exit code 127, which differs from the
code 1 of `die`, from the code `128 + s` of every death by signal, and from the code of
every normal exit other than 127; a user program that itself exits with 127 is not told
apart from an exec failure. -/
theorem exec_failure_code (env : Env) (g_argc : Nat) (g_argv : List String) (e : Nat)
    (t : Termination) (hsetup : setup_ok env) (hfork : env.fork = .ok 0)
    (hargc : 3 ≤ g_argc) (hexec : env.execvp = some e) (ht : t.wellFormed) :
    (child env g_argc g_argv).ctl = .exit 127 ∧
    (handle_child_exit (wait_status (termination_of_exit 127))).ctl = .exit 127 ∧
    (child env g_argc g_argv).ctl ≠ (die "setup" : Run Unit).ctl ∧
    (t ≠ .exited 127 → (handle_child_exit (wait_status t)).ctl ≠ .exit 127) := by
  have hctl : (child env g_argc g_argv).ctl = .exit 127 := by
    rw [(child_forked_exec env g_argc g_argv hsetup hfork hargc).1, hexec]
  refine ⟨hctl, by decide, ?_, ?_⟩
  · rw [hctl]
    simp
  · intro hne
    rw [handle_child_exit_wait_status t ht]
    cases t with
    | exited c =>
      simp only [spec_exit_code]
      intro h
      injection h with h
      apply hne
      congr 1
      omega
    | signaled s core =>
      simp only [spec_exit_code]
      intro h
      injection h with h
      omega

/-- Witness for C5 (amended): `execvp` fails with ENOENT; a program killed by signal 9
gives 137, not 127. -/
theorem exec_failure_code_witness :
    (child env_exec_fails 3 ["/proc/self/exe", "child", "nope"]).ctl = .exit 127 ∧
    (handle_child_exit (wait_status (.signaled 9 false))).ctl ≠ .exit 127 :=
  have h := exec_failure_code env_exec_fails 3 ["/proc/self/exe", "child", "nope"] 2
    (.signaled 9 false) ⟨rfl, rfl, rfl, ⟨"/home/user", rfl, by decide⟩, rfl, rfl, rfl, rfl⟩
    rfl (by decide) rfl (by decide)
  ⟨h.1, h.2.2.2 (by decide)⟩

/-! ## C6 -/

/-- C6 (counterexample): the proc mount succeeds and the tmpfs mount fails; the isolation
process exits 1 with proc still mounted and without any `umount2` call. -/
theorem mount_cleanup_counterexample :
    (child env_tmpfs_fails 3 ["/proc/self/exe", "child", "sh"]).ctl = .exit 1 ∧
    mounted_after (child env_tmpfs_fails 3 ["/proc/self/exe", "child", "sh"]).trace =
      ["proc"] ∧
    ¬ (mounted_after (child env_tmpfs_fails 3 ["/proc/self/exe", "child", "sh"]).trace = []) := by
  decide

/-- C6 (amended): in the isolation process, once the fatal steps up to the proc mount
have succeeded:
(1) when the tmpfs mount and `fork` succeed and both `umount2` calls succeed, every
filesystem mounted during setup has been unmounted before the process exits, whatever
`waitpid` returned and whatever status word it stored (normal exit with any code, death by
signal, exec failure): the trace ends with the two successful `umount2` calls followed by
the output of `handle_child_exit`, nothing mounted by the process is left mounted, and the
process exits;
(2) when the tmpfs mount fails, the process exits 1 with proc left mounted;
(3) when `fork` fails, the process exits 1 with proc and tmpfs left mounted;
(4) when `umount2` of proc fails, the process exits 1 with proc and tmpfs left mounted;
(5) when `umount2` of proc succeeds and that of mytemp fails, the process exits 1 with
tmpfs left mounted. -/
theorem mount_cleanup (env : Env) (g_argc : Nat) (g_argv : List String)
    (hpre : reaches_mkdir env) (hproc : env.mount "proc" = .ok) :
    (env.mount "mytemp" = .ok → ∀ pid, env.fork = .ok (pid + 1) →
      env.umount2 "proc" = .ok → env.umount2 "mytemp" = .ok →
        mounted_after (child env g_argc g_argv).trace = [] ∧
        (∃ pre status, (child env g_argc g_argv).trace =
          pre ++ [.sys (.umount2 "proc" 0) 0, .sys (.umount2 "mytemp" 0) 0] ++
            (handle_child_exit status).trace ∧
          mounted_after pre = ["mytemp", "proc"]) ∧
        (∃ code, (child env g_argc g_argv).ctl = .exit code)) ∧
    (∀ e, env.mount "mytemp" = .err e →
      (child env g_argc g_argv).ctl = .exit 1 ∧
      mounted_after (child env g_argc g_argv).trace = ["proc"]) ∧
    (env.mount "mytemp" = .ok → ∀ e, env.fork = .err e →
      (child env g_argc g_argv).ctl = .exit 1 ∧
      mounted_after (child env g_argc g_argv).trace = ["mytemp", "proc"]) ∧
    (env.mount "mytemp" = .ok → ∀ pid e, env.fork = .ok (pid + 1) →
      env.umount2 "proc" = .err e →
        (child env g_argc g_argv).ctl = .exit 1 ∧
        mounted_after (child env g_argc g_argv).trace = ["mytemp", "proc"]) ∧
    (env.mount "mytemp" = .ok → ∀ pid e, env.fork = .ok (pid + 1) →
      env.umount2 "proc" = .ok → env.umount2 "mytemp" = .err e →
        (child env g_argc g_argv).ctl = .exit 1 ∧
        mounted_after (child env g_argc g_argv).trace = ["mytemp"]) := by
  obtain ⟨h1, h2, h3, ⟨cwd, h4, h5⟩, h6, h7⟩ := hpre
  have h8 := hproc
  have hp := foldl_mount_step_neutral _ (print_args_keepsMounts g_argc g_argv)
  have hc := foldl_mount_step_neutral _ (cg_join_and_limit_keepsMounts env)
  have hh := fun s => foldl_mount_step_neutral _ (handle_child_exit_keepsMounts s)
  refine ⟨?_, ?_, ?_, ?_, ?_⟩
  · intro h9 pid hfork hu1 hu2
    have hsetup : setup_ok env := ⟨h1, h2, h3, ⟨cwd, h4, h5⟩, h6, h7, h8, h9⟩
    have hctl := child_parent_ctl env g_argc g_argv pid hsetup hfork hu1 hu2
    have htr := child_trace_parent env g_argc g_argv cwd h1 h2 h3 h4 h5 h6 h7 h8 h9 pid hfork
      hu1 hu2
    have hpre : mounted_after (setup_trace env g_argc g_argv cwd ++
        (cg_join_and_limit env).trace ++
        ([.sys .fork ((pid : Int) + 1),
          .sys (.waitpid ((pid : Int) + 1)) env.waitpid.toInt] ++
          (if env.waitpid.toInt < 0 then [.stderr "waitpid"] else []))) =
        ["mytemp", "proc"] := by
      split_ifs <;>
        simp [mounted_after, setup_trace, List.foldl_append, mount_step, hp, hc]
    refine ⟨?_, ⟨_, (match env.waitpid with
      | .ok _ => env.wstatus
      | .err _ => 0), ?_, hpre⟩, ?_⟩
    · rw [htr]
      split_ifs <;>
        simp [mounted_after, setup_trace, List.foldl_append, mount_step, hp, hc, hh]
    · rw [htr]
      simp only [List.append_assoc]
    · rw [hctl, handle_child_exit_ctl]
      split_ifs
      · exact ⟨_, rfl⟩
      · exact ⟨_, rfl⟩
      · exact ⟨_, rfl⟩
  · intro e h9
    unfold child
    simp [Run.bind_ctl, Run.bind_trace, Res0.toInt, snprintf, h1, h2, h3, h4,
      not_le.mpr h5, h6, h7, h8, h9, ensure_dir_ctl, ensure_dir_trace, mounted_after,
      List.foldl_append, mount_step, hp]
  · intro h9 e hfork
    unfold child
    simp [Run.bind_ctl, Run.bind_trace, Run.ite_ctl, Run.ite_trace, Res0.toInt, ResV.toInt,
      snprintf, h1, h2, h3, h4, not_le.mpr h5, h6, h7, h8, h9, hfork, ensure_dir_ctl,
      ensure_dir_trace, cg_join_and_limit_ctl, mounted_after, List.foldl_append, mount_step,
      hp, hc]
  · intro h9 pid e hfork hu1
    have hp1 : ¬ ((pid : Int) + 1 < 0) := by omega
    have hp2 : ¬ ((pid : Int) + 1 = 0) := by omega
    unfold child
    rcases hw : env.waitpid with q | e3
    · have hq : ¬ ((q : Int) < 0) := by omega
      simp [Run.bind_ctl, Run.bind_trace, Run.ite_ctl, Run.ite_trace, Res0.toInt, ResV.toInt,
        snprintf, h1, h2, h3, h4, not_le.mpr h5, h6, h7, h8, h9, hfork, hp1, hp2, hu1, hw,
        ensure_dir_ctl, ensure_dir_trace, cg_join_and_limit_ctl, mounted_after,
        List.foldl_append, mount_step, hp, hc, hq]
    · simp [Run.bind_ctl, Run.bind_trace, Run.ite_ctl, Run.ite_trace, Res0.toInt, ResV.toInt,
        snprintf, h1, h2, h3, h4, not_le.mpr h5, h6, h7, h8, h9, hfork, hp1, hp2, hu1, hw,
        ensure_dir_ctl, ensure_dir_trace, cg_join_and_limit_ctl, mounted_after,
        List.foldl_append, mount_step, hp, hc]
  · intro h9 pid e hfork hu1 hu2
    have hp1 : ¬ ((pid : Int) + 1 < 0) := by omega
    have hp2 : ¬ ((pid : Int) + 1 = 0) := by omega
    unfold child
    rcases hw : env.waitpid with q | e3
    · have hq : ¬ ((q : Int) < 0) := by omega
      simp [Run.bind_ctl, Run.bind_trace, Run.ite_ctl, Run.ite_trace, Res0.toInt, ResV.toInt,
        snprintf, h1, h2, h3, h4, not_le.mpr h5, h6, h7, h8, h9, hfork, hp1, hp2, hu1, hu2, hw,
        ensure_dir_ctl, ensure_dir_trace, cg_join_and_limit_ctl, mounted_after,
        List.foldl_append, mount_step, hp, hc, hq]
    · simp [Run.bind_ctl, Run.bind_trace, Run.ite_ctl, Run.ite_trace, Res0.toInt, ResV.toInt,
        snprintf, h1, h2, h3, h4, not_le.mpr h5, h6, h7, h8, h9, hfork, hp1, hp2, hu1, hu2, hw,
        ensure_dir_ctl, ensure_dir_trace, cg_join_and_limit_ctl, mounted_after,
        List.foldl_append, mount_step, hp, hc]

/-- Witness for C6 (amended): every call succeeds and the user program was killed by
signal 9, so nothing is left mounted; and when the tmpfs mount fails proc is left
mounted. -/
theorem mount_cleanup_witness :
    mounted_after (child (env_ok 9) 3 ["/proc/self/exe", "child", "sh"]).trace = [] ∧
    mounted_after (child env_tmpfs_fails 3 ["/proc/self/exe", "child", "sh"]).trace =
      ["proc"] :=
  ⟨((mount_cleanup (env_ok 9) 3 ["/proc/self/exe", "child", "sh"]
      ⟨rfl, rfl, rfl, ⟨"/home/user", rfl, by decide⟩, rfl, rfl⟩ rfl).1 rfl 1 rfl rfl rfl).1,
   ((mount_cleanup env_tmpfs_fails 3 ["/proc/self/exe", "child", "sh"]
      ⟨rfl, rfl, rfl, ⟨"/home/user", rfl, by decide⟩, rfl, rfl⟩ rfl).2.1 12 rfl).2⟩

/-! ## C7 -/

/-- C7 (counterexample): `mkdir("proc")` fails with EACCES, which is not EEXIST, and
`ensure_dir` returns -1.  When every other call succeeds `child` goes on to mount proc and
to fork, and exits with code 0 of the user program; when the mount on the missing
directory then fails, `child` has still gone on to the `mount` call, and the fatal
diagnostic is that of the mount. -/
theorem mkdir_failure_counterexample :
    env_mkdir_fails.mkdir "proc" 0o555 = .err 13 ∧ 13 ≠ EEXIST ∧
    (ensure_dir env_mkdir_fails "proc" 0o555).ctl = .ret (-1) ∧
    (child env_mkdir_fails 3 ["/proc/self/exe", "child", "sh"]).ctl = .exit 0 ∧
    Event.sys (.mount (some "proc") "proc" (some "proc") 0) 0 ∈
      (child env_mkdir_fails 3 ["/proc/self/exe", "child", "sh"]).trace ∧
    Event.sys .fork 2 ∈ (child env_mkdir_fails 3 ["/proc/self/exe", "child", "sh"]).trace ∧
    Event.sys (.mount (some "proc") "proc" (some "proc") 0) (-1) ∈
      (child env_mkdir_then_mount_fails 3 ["/proc/self/exe", "child", "sh"]).trace ∧
    (child env_mkdir_then_mount_fails 3 ["/proc/self/exe", "child", "sh"]).trace.getLast? =
      some (.stderr "mount proc failed") := by
  decide

/-- C7 (amended): `ensure_dir` treats directory-already-exists as success (it returns 0
when `mkdir` succeeds or fails with EEXIST, and -1 for any other failure), but `child`
discards that return value, so a creation failure is not fatal: whatever the `mkdir` calls
return (`f`), the control outcome of `child` is the same, and when the fatal steps before
them succeed the process goes on, after the two `mkdir` calls, to the proc mount, and when
both mounts succeed to the `fork`. -/
theorem mkdir_failure_not_fatal (env : Env) (f : String → Nat → Res0) (g_argc : Nat)
    (g_argv : List String) (hpre : reaches_mkdir env) :
    (∀ path mode, (ensure_dir env path mode).ctl =
      .ret (if env.mkdir path mode = .ok ∨ env.mkdir path mode = .err EEXIST then 0 else -1)) ∧
    (child { env with mkdir := f } g_argc g_argv).ctl = (child env g_argc g_argv).ctl ∧
    Event.sys (.mkdir "proc" 0o555) (f "proc" 0o555).toInt ∈
      (child { env with mkdir := f } g_argc g_argv).trace ∧
    Event.sys (.mkdir "mytemp" 0o755) (f "mytemp" 0o755).toInt ∈
      (child { env with mkdir := f } g_argc g_argv).trace ∧
    Event.sys (.mount (some "proc") "proc" (some "proc") 0) (env.mount "proc").toInt ∈
      (child { env with mkdir := f } g_argc g_argv).trace ∧
    (env.mount "proc" = .ok → env.mount "mytemp" = .ok →
      Event.sys .fork env.fork.toInt ∈ (child { env with mkdir := f } g_argc g_argv).trace) := by
  obtain ⟨h1, h2, h3, ⟨cwd, h4, h5⟩, h6, h7⟩ := hpre
  have hens : ∀ path mode, (ensure_dir env path mode).ctl =
      .ret (if env.mkdir path mode = .ok ∨ env.mkdir path mode = .err EEXIST then 0
        else -1) := by
    intro path mode
    rw [ensure_dir_ctl]
    cases hm : env.mkdir path mode <;> simp [Res0.toInt, Res0.errno]
  refine ⟨hens, child_ctl_mkdir_irrelevant env f g_argc g_argv, ?_⟩
  rcases h8 : env.mount "proc" with _ | e8
  · rcases h9 : env.mount "mytemp" with _ | e9
    · obtain ⟨rest, htr⟩ := child_trace_setup { env with mkdir := f } g_argc g_argv cwd
        h1 h2 h3 h4 h5 h6 h7 h8 h9
      rw [htr]
      simp [setup_trace, Res0.toInt]
    · unfold child
      simp [Run.bind_ctl, Run.bind_trace, Res0.toInt, snprintf, h1, h2, h3, h4,
        not_le.mpr h5, h6, h7, h8, h9, ensure_dir_ctl, ensure_dir_trace]
  · unfold child
    simp [Run.bind_ctl, Run.bind_trace, Res0.toInt, snprintf, h1, h2, h3, h4,
      not_le.mpr h5, h6, h7, h8, ensure_dir_ctl, ensure_dir_trace]

/-- Witness for C7 (amended): every `mkdir` fails with EACCES and the process still
mounts proc. -/
theorem mkdir_failure_not_fatal_witness :
    Event.sys (.mount (some "proc") "proc" (some "proc") 0) 0 ∈
      (child { env_ok 0 with mkdir := fun _ _ => .err 13 } 3
        ["/proc/self/exe", "child", "sh"]).trace :=
  (mkdir_failure_not_fatal (env_ok 0) (fun _ _ => .err 13) 3 ["/proc/self/exe", "child", "sh"]
    ⟨rfl, rfl, rfl, ⟨"/home/user", rfl, by decide⟩, rfl, rfl⟩).2.2.2.2.1

/-! ## C8 -/

/-- C8: for every path and mode `ensure_dir` returns 0 when `mkdir` succeeds or fails with
EEXIST and -1 for every other failure.  Hence, on a directory tree: on an existing
directory two calls in sequence both return 0 and leave the state unchanged; on a missing
directory that can be created two calls in sequence both return 0, and the state after
the second call is the state after the first. -/
theorem ensure_dir_idempotent (env : Env) (fs : FsState) (path : String) (mode : Nat) :
    (env.mkdir path mode = .ok ∨ env.mkdir path mode = .err EEXIST →
      (ensure_dir env path mode).ctl = .ret 0) ∧
    (∀ e, env.mkdir path mode = .err e → e ≠ EEXIST →
      (ensure_dir env path mode).ctl = .ret (-1)) ∧
    (fs.exists_ path = true →
      ensure_dir_on env fs path mode = (.ret 0, fs) ∧
      ensure_dir_on env (ensure_dir_on env fs path mode).2 path mode = (.ret 0, fs)) ∧
    (fs.exists_ path = false → fs.refuse path = none →
      (ensure_dir_on env fs path mode).1 = .ret 0 ∧
      (ensure_dir_on env fs path mode).2.exists_ path = true ∧
      ensure_dir_on env (ensure_dir_on env fs path mode).2 path mode =
        (.ret 0, (ensure_dir_on env fs path mode).2)) := by
  have hexists : ∀ fs1 : FsState, fs1.exists_ path = true →
      ensure_dir_on env fs1 path mode = (.ret 0, fs1) := by
    intro fs1 h
    simp [ensure_dir_on, ensure_dir_ctl, Env.on_fs, sys_mkdir, h, Res0.toInt, Res0.errno]
  refine ⟨?_, ?_, ?_, ?_⟩
  · intro h
    rw [ensure_dir_ctl]
    rcases h with h | h <;> simp [h, Res0.toInt, Res0.errno]
  · intro e h hne
    rw [ensure_dir_ctl]
    simp [h, Res0.toInt, Res0.errno, hne]
  · intro h
    have h1 := hexists fs h
    rw [h1]
    exact ⟨rfl, h1⟩
  · intro h hr
    have hstate : (ensure_dir_on env fs path mode).2 =
        { fs with entries := (path, mode) :: fs.entries } := by
      simp [ensure_dir_on, sys_mkdir, h, hr]
    have hex : (ensure_dir_on env fs path mode).2.exists_ path = true := by
      rw [hstate]
      simp [FsState.exists_]
    refine ⟨?_, hex, hexists _ hex⟩
    simp [ensure_dir_on, ensure_dir_ctl, Env.on_fs, sys_mkdir, h, hr, Res0.toInt]

/-- Witness for C8: creating "proc" twice on an empty tree returns 0 both times. -/
theorem ensure_dir_idempotent_witness :
    (ensure_dir_on (env_ok 0) fs_empty "proc" 0o555).1 = .ret 0 ∧
    (ensure_dir_on (env_ok 0) (ensure_dir_on (env_ok 0) fs_empty "proc" 0o555).2
      "proc" 0o555).1 = .ret 0 :=
  have h := (ensure_dir_idempotent (env_ok 0) fs_empty "proc" 0o555).2.2.2 (by decide) rfl
  ⟨h.1, by rw [h.2.2]⟩

/-! ## C9 -/

/-- C9: the Resource Limiter is best-effort.  For every combination of outcomes of its
calls `cg_join_and_limit` returns to its caller.  If the probe of /sys/fs/cgroup/pids
fails, the probe is its only call.  If the probe succeeds and creating the sub-group fails
(other than with EEXIST) nothing is opened or written.  If the probe and the sub-group
creation succeed, it opens, in this order and whatever the outcome of each, `pids.max`,
`notify_on_release` and `cgroup.procs` under /sys/fs/cgroup/pids/container, and writes
"20", "1" and the formatted process id to exactly those of them that could be opened; the
formatted process id is its decimal representation for every id below 2^31. -/
theorem cg_join_and_limit_best_effort (env : Env) :
    (cg_join_and_limit env).ctl = .ret () ∧
    (env.access "/sys/fs/cgroup/pids" ≠ .ok →
      (cg_join_and_limit env).trace =
        [.sys (.access "/sys/fs/cgroup/pids" F_OK) (-1)]) ∧
    (env.access "/sys/fs/cgroup/pids" = .ok →
      ∀ e, env.mkdir "/sys/fs/cgroup/pids/container" 0o755 = .err e → e ≠ EEXIST →
        opens_of (cg_join_and_limit env).trace = [] ∧
        writes_of (cg_join_and_limit env).trace = []) ∧
    (env.access "/sys/fs/cgroup/pids" = .ok →
      (env.mkdir "/sys/fs/cgroup/pids/container" 0o755 = .ok ∨
        env.mkdir "/sys/fs/cgroup/pids/container" 0o755 = .err EEXIST) →
      opens_of (cg_join_and_limit env).trace =
        ["/sys/fs/cgroup/pids/container/pids.max",
         "/sys/fs/cgroup/pids/container/notify_on_release",
         "/sys/fs/cgroup/pids/container/cgroup.procs"] ∧
      writes_of (cg_join_and_limit env).trace =
        (if (env.open_ "/sys/fs/cgroup/pids/container/pids.max").toInt ≥ 0 then
          [((env.open_ "/sys/fs/cgroup/pids/container/pids.max").toInt, "20")] else []) ++
        ((if (env.open_ "/sys/fs/cgroup/pids/container/notify_on_release").toInt ≥ 0 then
          [((env.open_ "/sys/fs/cgroup/pids/container/notify_on_release").toInt, "1")]
          else []) ++
        (if (env.open_ "/sys/fs/cgroup/pids/container/cgroup.procs").toInt ≥ 0 then
          [((env.open_ "/sys/fs/cgroup/pids/container/cgroup.procs").toInt,
            (snprintf 32 (toString (env.getpid : Int))).1)] else []))) ∧
    (env.getpid < 2 ^ 31 →
      (snprintf 32 (toString (env.getpid : Int))).1 = toString env.getpid) := by
  refine ⟨cg_join_and_limit_ctl env, ?_, ?_, ?_, snprintf_pid env.getpid⟩
  · intro h
    rw [cg_join_and_limit_trace]
    cases ha : env.access "/sys/fs/cgroup/pids" with
    | ok => exact absurd ha h
    | err e => simp [Res0.toInt]
  · intro ha e hm hne
    rw [cg_join_and_limit_trace]
    simp [ha, hm, hne, Res0.toInt, Res0.errno, opens_of, writes_of]
  · intro ha hm
    rw [cg_join_and_limit_trace]
    have hif : ¬ ((if (env.mkdir "/sys/fs/cgroup/pids/container" 0o755).toInt = 0 then (0 : Int)
        else if (env.mkdir "/sys/fs/cgroup/pids/container" 0o755).errno = EEXIST then 0
        else -1) < 0) := by
      rcases hm with hm | hm <;> simp [hm, Res0.toInt, Res0.errno]
    rw [ha, if_neg (by simp [Res0.toInt]), if_neg hif]
    have hshape : ∀ (a m g : Event) (w1 w2 w3 : List Event),
        a :: m :: (w1 ++ (w2 ++ g :: w3)) = [a, m] ++ (w1 ++ (w2 ++ ([g] ++ w3))) := by
      intros
      rfl
    rw [hshape]
    constructor
    · simp only [opens_of_append, opens_of_write_to_file]
      rfl
    · simp only [writes_of_append, writes_of_write_to_file]
      rfl

/-- Witness for C9: the controller is present, `pids.max` cannot be opened, and the two
later files are still opened and written. -/
theorem cg_join_and_limit_best_effort_witness :
    opens_of (cg_join_and_limit env_pids_max_denied).trace =
      ["/sys/fs/cgroup/pids/container/pids.max",
       "/sys/fs/cgroup/pids/container/notify_on_release",
       "/sys/fs/cgroup/pids/container/cgroup.procs"] ∧
    (cg_join_and_limit env_no_cgroup).trace =
      [.sys (.access "/sys/fs/cgroup/pids" F_OK) (-1)] :=
  ⟨((cg_join_and_limit_best_effort env_pids_max_denied).2.2.2.1 rfl (Or.inl rfl)).1,
   (cg_join_and_limit_best_effort env_no_cgroup).2.1 (by decide)⟩

/-! ## C10 -/

/-- C10: in `child`, a failing `waitpid` is only reported ("waitpid" on standard error) and
the status word keeps its initial value 0; with both unmounts succeeding the isolation
process then reports "Child exited with status 0" and exits with code 0, whatever status
word the kernel held for the user program.  The same failure in `run` exits with code 1. -/
theorem waitpid_failure_asymmetry (env env2 : Env) (g_argc argc2 : Nat)
    (g_argv argv2 : List String) (pid p2 e e2 : Nat)
    (hsetup : setup_ok env) (hfork : env.fork = .ok (pid + 1))
    (hwait : env.waitpid = .err e)
    (hu1 : env.umount2 "proc" = .ok) (hu2 : env.umount2 "mytemp" = .ok)
    (hclone : env2.clone = .ok p2) (hwait2 : env2.waitpid = .err e2) :
    (child env g_argc g_argv).ctl = .exit 0 ∧
    Event.stderr "waitpid" ∈ (child env g_argc g_argv).trace ∧
    Event.sys (.umount2 "proc" 0) 0 ∈ (child env g_argc g_argv).trace ∧
    (child env g_argc g_argv).trace.getLast? = some (.stdout "Child exited with status 0\n") ∧
    (run env2 argc2 argv2).ctl = .exit 1 ∧
    (run env2 argc2 argv2).trace.getLast? = some (.stderr "waitpid failed") := by
  have hctl := child_parent_ctl env g_argc g_argv pid hsetup hfork hu1 hu2
  obtain ⟨h1, h2, h3, ⟨cwd, h4, h5⟩, h6, h7, h8, h9⟩ := hsetup
  have htr := child_trace_parent env g_argc g_argv cwd h1 h2 h3 h4 h5 h6 h7 h8 h9 pid hfork
    hu1 hu2
  have hh : (handle_child_exit 0).trace = [.stdout "Child exited with status 0\n"] := by
    decide
  rw [hwait] at hctl htr
  simp only at hctl
  simp only [hh] at htr
  have hp2 : ¬ ((p2 : Int) = -1) := by omega
  refine ⟨?_, ?_, ?_, ?_, ?_, ?_⟩
  · rw [hctl]
    decide
  · rw [htr]
    simp [ResV.toInt]
  · rw [htr]
    simp
  · rw [htr, ← List.append_assoc]
    exact List.getLast?_concat _
  · unfold run
    simp [Run.bind_ctl, Run.ite_ctl, hclone, hwait2, ResV.toInt, hp2]
  · unfold run
    simp [Run.bind_ctl, Run.bind_trace, Run.ite_ctl, Run.ite_trace, hclone, hwait2, ResV.toInt,
      hp2]

/-- Witness for C10: the user program was killed by signal 9, `waitpid` fails with EINTR in
the isolation process, which exits 0; the launcher with a failing `waitpid` exits 1. -/
theorem waitpid_failure_asymmetry_witness :
    (child env_wait_fails 3 ["/proc/self/exe", "child", "sh"]).ctl = .exit 0 ∧
    (run env_run_wait_fails 3 ["container", "run", "sh"]).ctl = .exit 1 :=
  have h := waitpid_failure_asymmetry env_wait_fails env_run_wait_fails 3 3
    ["/proc/self/exe", "child", "sh"] ["container", "run", "sh"] 1 4242 4 4
    ⟨rfl, rfl, rfl, ⟨"/home/user", rfl, by decide⟩, rfl, rfl, rfl, rfl⟩ rfl rfl rfl rfl rfl rfl
  ⟨h.1, h.2.2.2.2.1⟩

end Container
